import Mathlib

/-!
Verification of the data acquisition and persistence layer of the
realtime-soccer-analytics repository: a shallow embedding of the SQLite-backed
local store (`sqlite_db.py`), the COVID-period classifier
(`data_processing.py`), the scoring-column normalizer (`utils.py`) and the
multi-source fetch orchestrator (`api.py`), together with theorems settling the
spec's testable properties against this embedding.

Modelling conventions:
* pandas DataFrames become `Frame` (a column list plus rows of association
  lists from column names to `Val` cell values); cell values are strings,
  integers, booleans or null (NaN/None).
* calendar dates and timestamps become integers in `yyyymmdd` form, whose
  order agrees with chronological order for valid dates.
* network I/O becomes oracle parameters: each HTTP request's response is drawn
  from an explicitly passed environment function, and `np.random` draws come
  from an explicitly passed `rng` oracle addressed by season, matchday, pair
  and field (range-restricted with `%` exactly where the source restricts
  them).
* `raise`/exception propagation becomes explicit error components in result
  structures; callers that wrap calls in `try/except` inspect those components.
-/

/-- Python `s.strip()`: remove leading and trailing whitespace. -/
def pyStrip (s : String) : String :=
  ⟨((s.data.dropWhile Char.isWhitespace).reverse.dropWhile
      Char.isWhitespace).reverse⟩

/-- Python `s.lower()` (ASCII case folding, which covers every string the
repository feeds it). -/
def pyLower (s : String) : String :=
  ⟨s.data.map Char.toLower⟩

/-- Python `s.startswith(prefixStr)`. -/
def pyStartswith (s prefixStr : String) : Bool :=
  prefixStr.data.isPrefixOf s.data

/-- Python `s.split(sep)[0]` for a one-character separator: the prefix before
the first occurrence of `sep` (the whole string when `sep` is absent). -/
def pySplitHead (s : String) (sep : Char) : String :=
  ⟨s.data.takeWhile (fun c => c != sep)⟩

/-- Python `int(s)` on an optionally signed decimal literal: `none` models the
raised `ValueError` (surrounding whitespace and underscore separators are
outside the modelled fragment). -/
def parsePyInt (s : String) : Option Int :=
  let digitsVal : List Char → Option Nat := fun l =>
    if l.isEmpty then none
    else l.foldl (fun acc c =>
      match acc with
      | none => none
      | some n => if c.isDigit then some (n * 10 + (c.toNat - 48)) else none)
      (some 0)
  match s.data with
  | '-' :: rest => (digitsVal rest).map (fun n => -(n : Int))
  | '+' :: rest => (digitsVal rest).map (fun n => (n : Int))
  | l => (digitsVal l).map (fun n => (n : Int))

/-- A cell value of a tabular record: string, integer, boolean, or null
(modelling pandas NaN / SQL NULL / Python None). -/
inductive Val where
  | s (v : String)
  | i (v : Int)
  | b (v : Bool)
  | null
  deriving DecidableEq, Repr

/-- Python `str(...)` / f-string rendering of a cell value, as used when
`save_matches` builds the `match_key` string. -/
def Val.fstr : Val → String
  | .s v => v
  | .i v => toString v
  | .b true => "True"
  | .b false => "False"
  | .null => "None"

/-- One tabular row: an association list from column names to cell values. -/
def Row : Type := List (String × Val)

instance : DecidableEq Row := by unfold Row; infer_instance

instance : Repr Row := by unfold Row; infer_instance

instance : Inhabited Row := ⟨([] : List (String × Val))⟩

/-- Value of column `c` in row `r` (`none` when the column is absent). -/
def Row.get (r : Row) (c : String) : Option Val :=
  match r with
  | [] => none
  | (k, v) :: rest => if k = c then some v else Row.get rest c

/-- Set column `c` of row `r` to `v`: replace in place when present, append
when absent (mirrors assigning one cell of a DataFrame column). -/
def Row.set (r : Row) (c : String) (v : Val) : Row :=
  match r with
  | [] => [(c, v)]
  | (k, w) :: rest => if k = c then (k, v) :: rest else (k, w) :: Row.set rest c v

/-- Remove column `c` from row `r` (mirrors `DataFrame.drop(col, axis=1)`). -/
def Row.drop (r : Row) (c : String) : Row :=
  match r with
  | [] => []
  | (k, w) :: rest => if k = c then Row.drop rest c else (k, w) :: Row.drop rest c

/-- A pandas DataFrame: the list of column names and the rows. -/
structure Frame where
  cols : List String
  rows : List Row
  deriving DecidableEq, Repr

/-- `df[c] = v` with a scalar `v`: set every row's `c` cell to `v` and record
the column. -/
def Frame.setColConst (f : Frame) (c : String) (v : Val) : Frame :=
  { cols := if c ∈ f.cols then f.cols else f.cols ++ [c]
    rows := f.rows.map (fun r => r.set c v) }

/-- `df[c] = g(row)`: set every row's `c` cell to a per-row computed value. -/
def Frame.setColBy (f : Frame) (c : String) (g : Row → Val) : Frame :=
  { cols := if c ∈ f.cols then f.cols else f.cols ++ [c]
    rows := f.rows.map (fun r => r.set c (g r)) }

/-! ## Local Store (`sqlite_db.py`)

The `matches` and `teams` tables of the SQLite file.  The autoincrement
surrogate `id` column is not modelled (no operation of the repository reads
it).  Stored match rows keep the association-list shape of the DataFrame rows
that `to_sql` appended. -/

/-- State of the SQLite database file: the `matches` and `teams` tables. -/
structure Store where
  matchesTab : List Row
  teamsTab : List Row
  deriving DecidableEq, Repr

/-- The empty store (fresh database file). -/
def Store.empty : Store := ⟨[], []⟩

/-- `SQLiteDB.save_matches` required columns (`sqlite_db.py` line 97). -/
def required_cols : List String :=
  ["date", "season", "home_team", "away_team", "home_goals", "away_goals"]

/-- The `match_key` string `f"{home_team}_{away_team}_{season}_{date}"` built
by `save_matches` (`sqlite_db.py` lines 118-121 and 132-135). -/
def matchKey (r : Row) : String :=
  (match r.get "home_team" with | some v => v.fstr | none => "None") ++ "_" ++
  (match r.get "away_team" with | some v => v.fstr | none => "None") ++ "_" ++
  (match r.get "season" with | some v => v.fstr | none => "None") ++ "_" ++
  (match r.get "date" with | some v => v.fstr | none => "None")

/-- `astype(int)` on a boolean DataFrame column cell. -/
def Val.toIntCell : Val → Val
  | .b true => .i 1
  | .b false => .i 0
  | .i n => .i n
  | v => v

/-- Result of a `save_matches` call: the store afterwards, the raised error if
any (`ValueError` on missing required columns), the caller's DataFrame object
after the call (`save_matches` mutates it in place: it adds the `league`,
`data_source`, `last_updated` and `match_key` columns and casts the win flags
to int), and the Python return value, which is `None` on every path. -/
structure SaveResult where
  store : Store
  err : Option String
  df : Frame
  ret : Option Nat
  deriving DecidableEq, Repr

/-- `if 'league' not in matches_df.columns: matches_df['league'] = league`
(`sqlite_db.py` lines 102-103). -/
def addLeagueCol (f : Frame) (league : String) : Frame :=
  if "league" ∈ f.cols then f else f.setColConst "league" (.s league)

/-- `for col in ['home_win', 'draw', 'away_win']: if col in matches_df.columns:
matches_df[col] = matches_df[col].astype(int)` (`sqlite_db.py` lines
110-112). -/
def intifyWinCols (f : Frame) : Frame :=
  (["home_win", "draw", "away_win"]).foldl
    (fun f c => if c ∈ f.cols then f.setColBy c (fun r =>
      (match r.get c with | some v => v.toIntCell | none => .null)) else f) f

/-- `matches_df['match_key'] = matches_df.apply(lambda row: f"...", axis=1)`
(`sqlite_db.py` lines 118-121). -/
def addMatchKeyCol (f : Frame) : Frame :=
  f.setColBy "match_key" (fun r => .s (matchKey r))

/-- The natural keys of the stored matches of one league, as read back by
`SELECT home_team, away_team, season, date FROM matches WHERE league = ?` and
keyed (`sqlite_db.py` lines 124-135). -/
def existingKeys (store : Store) (league : String) : List String :=
  (store.matchesTab.filter
    (fun r => r.get "league" = some (.s league))).map matchKey

/-- `SQLiteDB.save_matches(matches_df, league, data_source)`
(`sqlite_db.py` lines 84-153), with `now` the `datetime.utcnow().isoformat()`
timestamp.  Rows whose natural key already occurs among the stored rows of the
same league are filtered out; only the remaining rows are appended.  The
function returns no value. -/
def save_matches (df : Frame) (league data_source now : String) (store : Store) :
    SaveResult :=
  if df.rows.isEmpty then
    ⟨store, none, df, none⟩
  else if ¬ required_cols.all (fun c => c ∈ df.cols) then
    ⟨store, some "Matches DataFrame is missing required columns", df, none⟩
  else
    let df3 := ((addLeagueCol df league).setColConst "data_source"
      (.s data_source)).setColConst "last_updated" (.s now)
    let df5 := addMatchKeyCol (intifyWinCols df3)
    let newRows := (df5.rows.filter (fun r =>
      ! (match r.get "match_key" with
         | some (.s k) => (existingKeys store league).contains k
         | _ => false))).map (fun r => r.drop "match_key")
    ⟨⟨store.matchesTab ++ newRows, store.teamsTab⟩, none, df5, none⟩

/-- `astype(bool)` on an integer DataFrame column cell, as applied to
`home_win`/`draw`/`away_win` by `get_matches`. -/
def Val.toBoolCell : Val → Val
  | .i n => .b (n ≠ 0)
  | .b v => .b v
  | v => v

/-- `SQLiteDB.get_matches(league, seasons, team)` (`sqlite_db.py` lines
190-244): rows of the `matches` table passing the league / season-membership /
team-is-home-or-away filters, with the win flags cast back to booleans. -/
def get_matches (league : Option String) (seasons : List String)
    (team : Option String) (store : Store) : List Row :=
  ((store.matchesTab.filter (fun r =>
    (match league with
     | some l => decide (r.get "league" = some (.s l))
     | none => true) &&
    (if seasons.isEmpty then true
     else seasons.any (fun sn => decide (r.get "season" = some (.s sn)))) &&
    (match team with
     | some t => decide (r.get "home_team" = some (.s t)) ||
                 decide (r.get "away_team" = some (.s t))
     | none => true))).map (fun r =>
      (["home_win", "draw", "away_win"]).foldl (fun rr c =>
        match rr.get c with
        | some v => rr.set c v.toBoolCell
        | none => rr) r))

/-- Lexical read-only check of `SQLiteDB.execute_custom_query`
(`sqlite_db.py` line 292): the stripped, lowercased query text must start with
`select`, `pragma` or `explain`. -/
def isReadOnlyQuery (q : String) : Bool :=
  let t := pyLower (pyStrip q)
  pyStartswith t "select" || pyStartswith t "pragma" || pyStartswith t "explain"

/-- Outcome of a custom query: a result table, or the error-message DataFrame
`pd.DataFrame({'Error': [msg]})` the method returns when executing the query
fails. -/
inductive QueryOutcome where
  | table (rows : List (List Val))
  | errorTable (msg : String)
  deriving DecidableEq, Repr

/-- SQLite evaluation of the read-only query fragment the development needs
(`pd.read_sql` against the store): `SELECT COUNT(*) FROM matches` yields a
single row holding the row count of the `matches` table; queries outside the
modelled fragment fail (and `execute_custom_query` converts that failure into
an error DataFrame). -/
def evalReadSql (q : String) (store : Store) : Except String (List (List Val)) :=
  if q = "SELECT COUNT(*) FROM matches" then
    .ok [[.i (store.matchesTab.length : Int)]]
  else
    .error "query outside the modelled read-only fragment"

/-- `SQLiteDB.execute_custom_query(query)` (`sqlite_db.py` lines 277-301).
The first component is the raised `ValueError` (for a non-read-only query) or
the outcome; the second component is the store after the call — the method
never writes, and the rejection happens before a connection is opened. -/
def execute_custom_query (q : String) (store : Store) :
    Except String QueryOutcome × Store :=
  if ¬ isReadOnlyQuery q then
    (.error "Only SELECT queries are allowed for safety reasons", store)
  else
    match evalReadSql q store with
    | .ok rows => (.ok (.table rows), store)
    | .error m => (.ok (.errorTable m), store)

/-! ## Period Classifier (`data_processing.py`) -/

/-- `pd.Timestamp.min` (1677-09-21) as a `yyyymmdd` integer. -/
def tsMin : Int := 16770921

/-- `pd.Timestamp.max` (2262-04-11) as a `yyyymmdd` integer. -/
def tsMax : Int := 22620411

/-- `pd.cut` precondition: bin edges must increase strictly monotonically,
else `pd.cut` raises `ValueError`. -/
def strictlyIncreasing : List Int → Bool
  | a :: b :: rest => a < b && strictlyIncreasing (b :: rest)
  | _ => true

/-- One-sided binning of `pd.cut(..., right=False)`: value `x` receives the
label of the first interval `[bᵢ, bᵢ₊₁)` containing it, and no label when it
falls outside every bin. -/
def cutRightFalse (bins : List Int) (labels : List String) (x : Int) :
    Option String :=
  match bins, labels with
  | b0 :: b1 :: rest, l :: ls =>
      if b0 ≤ x ∧ x < b1 then some l else cutRightFalse (b1 :: rest) ls x
  | _, _ => none

/-- `define_covid_periods(df, pre_covid_end, during_covid_end)`
(`data_processing.py` lines 5-51): stamps each match date with a period label
via `pd.cut` over the bins `[Timestamp.min, pre_covid_end, during_covid_end,
Timestamp.max]` with `right=False` and labels Pre-COVID / During-COVID /
Post-COVID; boundary arguments default to 2020-03-01 and 2021-07-31.  The df
is modelled by its `date` column.  `pd.cut` raises (so the function raises,
classifying nothing) when the bins are not strictly increasing. -/
def define_covid_periods (dates : List Int)
    (pre_covid_end during_covid_end : Option Int) :
    Except String (List (Int × Option String)) :=
  let pre := pre_covid_end.getD 20200301
  let dur := during_covid_end.getD 20210731
  let bins := [tsMin, pre, dur, tsMax]
  if ¬ strictlyIncreasing bins then
    .error "bins must increase monotonically"
  else
    .ok (dates.map (fun d =>
      (d, cutRightFalse bins ["Pre-COVID", "During-COVID", "Post-COVID"] d)))

/-! ## Scoring normalization (`utils.py`) and shared derived columns -/

/-- pandas `>` on two cells after numeric coercion: integer comparison; any
comparison involving NaN is `False`. -/
def Val.pdGt : Val → Val → Bool
  | .i x, .i y => decide (x > y)
  | _, _ => false

/-- pandas `==` on two cells after numeric coercion: integer equality; any
comparison involving NaN is `False` (in particular `NaN == NaN` is `False`). -/
def Val.pdEq : Val → Val → Bool
  | .i x, .i y => decide (x = y)
  | _, _ => false

/-- pandas `<` on two cells after numeric coercion: integer comparison; any
comparison involving NaN is `False`. -/
def Val.pdLt : Val → Val → Bool
  | .i x, .i y => decide (x < y)
  | _, _ => false

/-- The derived outcome flags `(home_win, draw, away_win)` as computed — with
identical expressions — at `api.py` lines 234-236, `api.py` lines 380-382,
`api.py` lines 489-491 and `utils.py` lines 107-109:
`home_goals > away_goals`, `home_goals == away_goals`,
`home_goals < away_goals`. -/
def deriveWinFlags (hg ag : Val) : Val × Val × Val :=
  (.b (hg.pdGt ag), .b (hg.pdEq ag), .b (hg.pdLt ag))

/-- `df['home_win'] = df['home_goals'] > df['away_goals']` and the two sibling
assignments, applied to a whole DataFrame. -/
def addDerivedWinCols (f : Frame) : Frame :=
  let hg := fun (r : Row) => (r.get "home_goals").getD .null
  let ag := fun (r : Row) => (r.get "away_goals").getD .null
  ((f.setColBy "home_win" (fun r => (deriveWinFlags (hg r) (ag r)).1)).setColBy
      "draw" (fun r => (deriveWinFlags (hg r) (ag r)).2.1)).setColBy
      "away_win" (fun r => (deriveWinFlags (hg r) (ag r)).2.2)

/-- `pd.to_numeric(col, errors='coerce')` on one cell: integers stay, booleans
become 0/1, decimal strings parse to their integer value when integral, and
anything unparseable becomes NaN.  (Fractional values are outside the modelled
fragment; no claim exercises them.) -/
def Val.toNumericCell : Val → Val
  | .i n => .i n
  | .b true => .i 1
  | .b false => .i 0
  | .s str => match parsePyInt str with
              | some n => .i n
              | none => .null
  | .null => .null

/-- The scalar entries of `column_mappings` in `utils.process_scoring_columns`
(`utils.py` lines 59-77), in iteration order.  The `'score'` entry, whose
handler splits a `"2-1"`-style string column, is outside the modelled
fragment (no claim exercises it). -/
def column_mappings : List (String × String) :=
  [("fthg", "home_goals"), ("ftag", "away_goals"),
   ("hg", "home_goals"), ("ag", "away_goals"),
   ("xg", "xg_home"), ("xg.1", "xg_away"),
   ("hf", "fouls_home"), ("af", "fouls_away"),
   ("hy", "yellow_home"), ("ay", "yellow_away"),
   ("hr", "red_home"), ("ar", "red_away"),
   ("hs", "shots_home"), ("as", "shots_away"),
   ("hc", "corners_home"), ("ac", "corners_away")]

/-- `utils.process_scoring_columns(df)` (`utils.py` lines 51-109): copy each
recognised provider column onto its canonical name, make sure `home_goals` and
`away_goals` exist (filling NaN when absent) and are numeric, then derive the
`home_win`/`draw`/`away_win` flags from the goal comparison. -/
def process_scoring_columns (f : Frame) : Frame :=
  let f1 := column_mappings.foldl (fun f p =>
    if p.1 ∈ f.cols then f.setColBy p.2 (fun r => (r.get p.1).getD .null)
    else f) f
  let f2 := (["home_goals", "away_goals"]).foldl (fun f c =>
    if c ∈ f.cols then
      f.setColBy c (fun r => ((r.get c).getD .null).toNumericCell)
    else f.setColConst c .null) f1
  addDerivedWinCols f2

/-! ## Source adapters and fetch orchestrator (`api.py`)

HTTP responses are supplied by oracle environments (one response per request),
and `np.random` draws by an oracle `rng` function; both are universally
quantified in every theorem, so every concrete network/randomness behaviour is
an instance. -/

/-- `LEAGUE_MAPPING[league]["football_data"]` (`api.py` lines 23-29). -/
def LEAGUE_MAPPING_FD : List (String × Int) :=
  [("Premier League", 2021), ("La Liga", 2014), ("Bundesliga", 2002),
   ("Serie A", 2019), ("Ligue 1", 2015)]

/-- `LEAGUE_MAPPING[league]["api_football"]` (`api.py` lines 23-29). -/
def LEAGUE_MAPPING_AF : List (String × Int) :=
  [("Premier League", 39), ("La Liga", 140), ("Bundesliga", 78),
   ("Serie A", 135), ("Ligue 1", 61)]

/-- `SEASON_MAPPING` (`api.py` lines 32-40). -/
def SEASON_MAPPING : List (String × Int) :=
  [("2017/2018", 2017), ("2018/2019", 2018), ("2019/2020", 2019),
   ("2020/2021", 2020), ("2021/2022", 2021), ("2022/2023", 2022),
   ("2023/2024", 2023)]

/-- The shared post-fetch team-filter predicate
`not (team and team not in [home_team, away_team])`: keep the record when no
(truthy) filter is given or the filter value is one of the two teams. -/
def teamFilterKeep (team : Option String) (home away : String) : Bool :=
  match team with
  | none => true
  | some t => t = "" || t = home || t = away

/-- One match object of a football-data.org `/matches` response, reduced to
the fields the normalization reads (each modelled after the corresponding
`.get` with its default). -/
structure FDMatch where
  status : String
  utcDate : String
  homeTeam : String
  awayTeam : String
  homeGoals : Int
  awayGoals : Int
  matchday : Int
  fdId : Val
  deriving DecidableEq, Repr

/-- A football-data.org HTTP response: status code and (when 200) the parsed
match list. -/
structure FDResp where
  code : Nat
  matchList : List FDMatch
  deriving DecidableEq, Repr

/-- Final response used for one season by the primary fetch (`api.py` lines
181-195): the first response, except that a 429 triggers one blocking wait and
exactly one retry, whose response is then used. -/
def primaryFinalResp (respond : Nat → FDResp) : FDResp :=
  if (respond 0).code = 429 then respond 1 else respond 0

/-- Number of HTTP requests the primary fetch issues for one season. -/
def primaryRequestCount (respond : Nat → FDResp) : Nat :=
  if (respond 0).code = 429 then 2 else 1

/-- Number of backoff waits (`time.sleep(60)`) the primary fetch performs for
one season. -/
def primarySleepCount (respond : Nat → FDResp) : Nat :=
  if (respond 0).code = 429 then 1 else 0

/-- Normalization of one finished football-data.org match into the canonical
record shape (`api.py` lines 207-218). -/
def normalizeFDMatch (league season : String) (m : FDMatch) : Row :=
  [("date", .s (pySplitHead m.utcDate 'T')),
   ("season", .s season),
   ("league", .s league),
   ("home_team", .s m.homeTeam),
   ("away_team", .s m.awayTeam),
   ("home_goals", .i m.homeGoals),
   ("away_goals", .i m.awayGoals),
   ("matchday", .i m.matchday),
   ("data_source", .s "football-data.org"),
   ("data_source_id", m.fdId)]

/-- Records accumulated for one season by the primary fetch (`api.py` lines
197-224): nothing unless the final response is 200; otherwise the finished
matches, normalized, kept only when they pass the team filter. -/
def primarySeasonRows (league season : String) (team : Option String)
    (respond : Nat → FDResp) : List Row :=
  let final := primaryFinalResp respond
  if final.code = 200 then
    (final.matchList.filter (fun m => m.status == "FINISHED")).filterMap
      (fun m =>
        if teamFilterKeep team m.homeTeam m.awayTeam then
          some (normalizeFDMatch league season m)
        else none)
  else []

/-- The primary fetch's season loop (`api.py` lines 168-224): seasons without
a season-year or league-id mapping are skipped; the rest contribute their
normalized records in order. -/
def primaryAllRows (league : String) (seasons : List String)
    (team : Option String) (envP : String → Nat → FDResp) : List Row :=
  seasons.flatMap (fun season =>
    match SEASON_MAPPING.lookup season, LEAGUE_MAPPING_FD.lookup league with
    | some _, some _ => primarySeasonRows league season team (envP season)
    | _, _ => [])

/-- One entry of a team's `statistics` list in an api-football.com fixture
(`type` and the `.get('value', 0)` result). -/
structure AFStat where
  statType : String
  value : Val
  deriving DecidableEq, Repr

/-- One `team_stats` block of an api-football.com fixture: the
`.get('team', {}).get('name')` result (absent ⇒ `none`) and the statistics
entries. -/
structure AFTeamStats where
  teamName : Option String
  stats : List AFStat
  deriving DecidableEq, Repr

/-- One fixture of an api-football.com `/fixtures` response, reduced to the
fields the normalization reads. -/
structure AFMatch where
  statusShort : String
  fixtureDate : String
  attendance : Val
  homeTeam : String
  awayTeam : String
  homeGoals : Int
  awayGoals : Int
  statistics : List AFTeamStats
  deriving DecidableEq, Repr

/-- An api-football.com HTTP response. -/
structure AFResp where
  code : Nat
  fixtures : List AFMatch
  deriving DecidableEq, Repr

/-- The home-side branch of the statistics `elif` chain (`api.py` lines
341-351). -/
def applyStatHome (row : Row) (st : AFStat) : Row :=
  if st.statType = "Shots on Goal" then row.set "shots_home" st.value
  else if st.statType = "Fouls" then row.set "fouls_home" st.value
  else if st.statType = "Corner Kicks" then row.set "corners_home" st.value
  else if st.statType = "Yellow Cards" then row.set "yellow_home" st.value
  else if st.statType = "Red Cards" then row.set "red_home" st.value
  else row

/-- The away-side branch of the statistics `elif` chain (`api.py` lines
353-364). -/
def applyStatAway (row : Row) (st : AFStat) : Row :=
  if st.statType = "Shots on Goal" then row.set "shots_away" st.value
  else if st.statType = "Fouls" then row.set "fouls_away" st.value
  else if st.statType = "Corner Kicks" then row.set "corners_away" st.value
  else if st.statType = "Yellow Cards" then row.set "yellow_away" st.value
  else if st.statType = "Red Cards" then row.set "red_away" st.value
  else row

/-- Processing of one api-football.com fixture (`api.py` lines 314-370).  The
state threads `team` — the function's filter parameter, which the statistics
loop at `api.py` line 337 REBINDS to each statistics block's team name — and
the accumulated records.  The final filter at line 367 therefore tests the
current value of that variable, not necessarily the caller's filter. -/
def afStatsStep (m : AFMatch) (p : Option String × Row)
    (ts : AFTeamStats) : Option String × Row :=
  let tv := ts.teamName
  match tv with
  | some name =>
      if name = m.homeTeam then (tv, ts.stats.foldl applyStatHome p.2)
      else if name = m.awayTeam then (tv, ts.stats.foldl applyStatAway p.2)
      else (tv, p.2)
  | none => (tv, p.2)

/-- Processing of one api-football.com fixture, continued: the statistics
loop threads the rebindable `team` variable via `afStatsStep`, then the final
filter tests the variable's current value. -/
def processAFMatch (season : String) (state : Option String × List Row)
    (m : AFMatch) : Option String × List Row :=
  if m.statusShort ≠ "FT" then state
  else
    let base : Row :=
      [("date", .s (pySplitHead m.fixtureDate 'T')),
       ("season", .s season),
       ("home_team", .s m.homeTeam),
       ("away_team", .s m.awayTeam),
       ("home_goals", .i m.homeGoals),
       ("away_goals", .i m.awayGoals),
       ("attendance", m.attendance)]
    let fin := m.statistics.foldl (afStatsStep m) (state.1, base)
    if teamFilterKeep fin.1 m.homeTeam m.awayTeam then
      (fin.1, state.2 ++ [fin.2])
    else
      (fin.1, state.2)

/-- `pd.DataFrame(list_of_dicts)`: the columns are the union of the rows' keys
in order of first appearance; rows keep their own cells (a row lacking a
column reads as NaN). -/
def frameOfRows (rows : List Row) : Frame :=
  ⟨rows.foldl (fun acc r =>
      acc ++ ((r.map Prod.fst).filter (fun c => !(acc.contains c)))) [],
   rows⟩

/-- The extended-stat placeholder columns (`api.py` lines 244-246 and
385-387). -/
def statPlaceholderCols : List String :=
  ["shots_home", "shots_away", "fouls_home", "fouls_away",
   "corners_home", "corners_away", "yellow_home", "yellow_away",
   "red_home", "red_away", "xg_home", "xg_away"]

/-- `for col in [...]: if col not in df.columns: df[col] = None`. -/
def addPlaceholderCols (f : Frame) : Frame :=
  statPlaceholderCols.foldl (fun f c =>
    if c ∈ f.cols then f else f.setColConst c .null) f

/-- `create_empty_dataframe()` (`api.py` lines 401-409). -/
def create_empty_dataframe : Frame :=
  ⟨["date", "season", "home_team", "away_team", "home_goals", "away_goals",
    "attendance", "shots_home", "shots_away", "fouls_home", "fouls_away",
    "corners_home", "corners_away", "yellow_home", "yellow_away",
    "red_home", "red_away", "xg_home", "xg_away",
    "home_win", "draw", "away_win"], []⟩

/-- The twenty placeholder team names `"Team 1"` … `"Team 20"` used when the
fetched team list has fewer than 10 entries (`api.py` line 437). -/
def sampleTeamNames : List String :=
  (List.range 20).map (fun i => "Team " ++ toString (i + 1))

/-- One synthetic match record of `create_sample_data` (`api.py` lines
457-492).  `np.random` draws come from the oracle `rng`, addressed by season,
matchday, pairing index and a per-field index, reduced into the source's
`randint(lo, hi)` ranges with `lo + draw % (hi - lo)`; the `xg` floats
(`round(uniform(a, b), 1)`) are carried in tenths so the development stays in
integer arithmetic (no claim reads them). -/
def sampleRow (season home away : String) (date : Int)
    (rng : String → Nat → Nat → Nat → Nat) (matchDay i : Nat) : Row :=
  let d := fun (field : Nat) => rng season matchDay i field
  let attendance : Nat :=
    if date < 20200301 then 30000 + d 0 % 30000
    else if date < 20210501 then d 0 % 1000
    else 30000 + d 0 % 30000
  let hg : Int := (d 1 % 5 : Nat)
  let ag : Int := (d 2 % 4 : Nat)
  let flags := deriveWinFlags (.i hg) (.i ag)
  [("date", .i date),
   ("season", .s season),
   ("home_team", .s home),
   ("away_team", .s away),
   ("home_goals", .i hg),
   ("away_goals", .i ag),
   ("attendance", .i (attendance : Int)),
   ("shots_home", .i ((5 + d 3 % 15 : Nat) : Int)),
   ("shots_away", .i ((3 + d 4 % 15 : Nat) : Int)),
   ("fouls_home", .i ((8 + d 5 % 8 : Nat) : Int)),
   ("fouls_away", .i ((8 + d 6 % 10 : Nat) : Int)),
   ("corners_home", .i ((3 + d 7 % 9 : Nat) : Int)),
   ("corners_away", .i ((2 + d 8 % 8 : Nat) : Int)),
   ("yellow_home", .i ((d 9 % 5 : Nat) : Int)),
   ("yellow_away", .i ((d 10 % 6 : Nat) : Int)),
   ("red_home", .i ((d 11 % 2 : Nat) : Int)),
   ("red_away", .i ((d 12 % 2 : Nat) : Int)),
   ("xg_home", .i ((5 + d 13 % 21 : Nat) : Int)),
   ("xg_away", .i ((3 + d 14 % 18 : Nat) : Int)),
   ("home_win", flags.1),
   ("draw", flags.2.1),
   ("away_win", flags.2.2)]

/-- The team list actually paired up by `create_sample_data` (`api.py` lines
434-445): the fetched list, replaced by the twenty placeholder names when it
has fewer than 10 entries; with a team filter, the requested team is appended
if absent and the pairing pool is its occurrences followed by five other
teams; without one, the first twenty teams. -/
def sampleRelevantTeams (team : Option String) (teamsFetched : List String) :
    List String :=
  let teams1 := if teamsFetched.length < 10 then sampleTeamNames else teamsFetched
  match team with
  | some t =>
      let teams2 := if t ∈ teams1 then teams1 else teams1 ++ [t]
      (teams2.filter (fun x => x == t)) ++
        ((teams2.filter (fun x => x != t)).take 5)
  | none => teams1.take 20

/-- The synthetic rows of one season (`api.py` lines 431-494): 38 matchdays,
each pairing team `i` with team `n-1-i`, filtered by the requested team.  The
38 `pd.date_range` timestamps are supplied by the oracle `dateOf` (start
year, matchday) as `yyyymmdd` integers. -/
def sampleSeasonRows (season : String) (team : Option String)
    (teamsFetched : List String) (dateOf : Int → Nat → Int)
    (rng : String → Nat → Nat → Nat → Nat) (startYear : Int) : List Row :=
  let relevant := sampleRelevantTeams team teamsFetched
  (List.range 38).flatMap (fun kIdx =>
    let matchDay := kIdx + 1
    let date := dateOf startYear matchDay
    (List.range (relevant.length / 2)).filterMap (fun i =>
      let home := relevant.getD i ""
      let away := relevant.getD (relevant.length - 1 - i) ""
      if teamFilterKeep team home away then
        some (sampleRow season home away date rng matchDay i)
      else none))

/-- One iteration of `create_sample_data`'s season loop (`api.py` lines
423-427): `int(season.split('/')[0])` raises `ValueError` on an unparsable
label, and rows are generated only for a season of the `"{y}/{y+1}"`
shape. -/
def sampleSeasonStep (team : Option String) (teamsFetched : List String)
    (dateOf : Int → Nat → Int) (rng : String → Nat → Nat → Nat → Nat)
    (acc : List Row) (season : String) : Except String (List Row) :=
  match parsePyInt (pySplitHead season '/') with
  | none => throw "invalid literal for int() with base 10"
  | some startYear =>
      if toString startYear ++ "/" ++ toString (startYear + 1) = season then
        pure (acc ++ sampleSeasonRows season team teamsFetched dateOf rng
          startYear)
      else
        pure acc

/-- `create_sample_data(league, seasons, team)` (`api.py` lines 411-498).
The `get_teams(league)` result is supplied as the `teamsFetched` parameter
(its own cache/API/fallback chain is a separate call). -/
def create_sample_data (seasons : List String) (team : Option String)
    (teamsFetched : List String) (dateOf : Int → Nat → Int)
    (rng : String → Nat → Nat → Nat → Nat) : Except String Frame := do
  let rows ← seasons.foldlM (sampleSeasonStep team teamsFetched dateOf rng)
    ([] : List Row)
  pure (frameOfRows rows)

/-- `fetch_football_data_fallback(league, seasons, team)` (`api.py` lines
278-399): accumulate normalized finished fixtures across the mapped seasons
(threading the rebindable `team` variable), add derived and placeholder
columns when anything was collected, otherwise fall back to
`create_sample_data`.  An exception inside the `try` is caught and answered
with `create_sample_data` again, which fails identically, so an error
from sample generation propagates either way. -/
def fetch_football_data_fallback (league : String) (seasons : List String)
    (team : Option String) (envF : String → AFResp)
    (teamsFetched : List String) (dateOf : Int → Nat → Int)
    (rng : String → Nat → Nat → Nat → Nat) : Except String Frame :=
  let looped := seasons.foldl (fun (st : Option String × List Row) season =>
    match SEASON_MAPPING.lookup season, LEAGUE_MAPPING_AF.lookup league with
    | some _, some _ =>
        let resp := envF season
        if resp.code = 200 then resp.fixtures.foldl (processAFMatch season) st
        else st
    | _, _ => st) (team, [])
  if looped.2.isEmpty then
    create_sample_data seasons team teamsFetched dateOf rng
  else
    .ok (addPlaceholderCols (addDerivedWinCols (frameOfRows looped.2)))

/-- `fetch_football_data(league, seasons, team)` (`api.py` lines 139-276):
serve from the SQLite cache when the filtered store is non-empty; otherwise
try the primary adapter (with its one-retry backoff per season), persist and
return its records; otherwise call the fallback adapter / synthetic chain,
persist and return its result.  `save_matches` mutates the DataFrame being
returned (adds `league`, `data_source`, `last_updated`, `match_key`, casts
flags to int); persistence failures are printed and swallowed.  An exception
from the fallback chain is caught and answered with the empty canonical
frame. -/
def fetch_football_data (league : String) (seasons : List String)
    (team : Option String) (store : Store) (envP : String → Nat → FDResp)
    (envF : String → AFResp) (teamsFetched : List String)
    (dateOf : Int → Nat → Int) (rng : String → Nat → Nat → Nat → Nat)
    (now : String) : Frame × Store :=
  let cached := get_matches (some league) seasons team store
  if ¬ cached.isEmpty then
    (frameOfRows cached, store)
  else
    let primRows := primaryAllRows league seasons team envP
    if ¬ primRows.isEmpty then
      let df0 := addDerivedWinCols (frameOfRows primRows)
      let df1 := if "attendance" ∈ df0.cols then df0
                 else df0.setColConst "attendance" .null
      let df := addPlaceholderCols df1
      let sv := save_matches df league "football-data.org" now store
      (sv.df, sv.store)
    else
      match fetch_football_data_fallback league seasons team envF teamsFetched
          dateOf rng with
      | .error _ => (create_empty_dataframe, store)
      | .ok fb =>
          if ¬ fb.rows.isEmpty then
            let fb1 := fb.setColConst "league" (.s league)
            let sv := save_matches fb1 league "api-football.com" now store
            (sv.df, sv.store)
          else (fb, store)

/-! ## Specification-side helper definitions for the theorems -/

/-- Exactly one of three booleans is `true`. -/
def exactlyOneTrue (a b c : Bool) : Bool :=
  (a && !b && !c) || (!a && b && !c) || (!a && !b && c)

/-- The per-row effect of `intifyWinCols` (win flags cast to int), given the
frame's column list. -/
def winMut (cols : List String) (r : Row) : Row :=
  let r3 := if "home_win" ∈ cols then
      r.set "home_win" (match r.get "home_win" with
        | some v => v.toIntCell | none => .null)
    else r
  let r4 := if "draw" ∈ cols then
      r3.set "draw" (match r3.get "draw" with
        | some v => v.toIntCell | none => .null)
    else r3
  if "away_win" ∈ cols then
    r4.set "away_win" (match r4.get "away_win" with
      | some v => v.toIntCell | none => .null)
  else r4

/-- The per-row effect of the in-place column mutations `save_matches`
performs before the `match_key` column is added (league/data_source/
last_updated assignment, win flags cast to int), parameterized by the
original column list. -/
def saveMutPre (cols : List String) (league source now : String) (r : Row) : Row :=
  winMut cols
    (((if "league" ∈ cols then r else r.set "league" (.s league)).set
        "data_source" (.s source)).set "last_updated" (.s now))

/-- The full per-row effect of `save_matches`'s in-place mutations, including
the computed `match_key` column: a specification-side restatement of the
frame-level pipeline. -/
def saveMutRow (cols : List String) (league source now : String) (r : Row) : Row :=
  (saveMutPre cols league source now r).set "match_key"
    (.s (matchKey (saveMutPre cols league source now r)))

/-- Append a column name unless already present (the column-list effect of a
scalar column assignment). -/
def appendIfAbsent (cols : List String) (c : String) : List String :=
  if c ∈ cols then cols else cols ++ [c]

/-- The column list of the DataFrame after `save_matches`'s in-place
mutations. -/
def mutCols (cols : List String) : List String :=
  appendIfAbsent (appendIfAbsent (appendIfAbsent
    (appendIfAbsent cols "league") "data_source") "last_updated") "match_key"

/-- A row's win flags exist, agree with the pandas comparison of its goal
cells, and exactly one of them is set. -/
def rowFlagsOk (r : Row) : Bool :=
  match r.get "home_goals", r.get "away_goals",
        r.get "home_win", r.get "draw", r.get "away_win" with
  | some hg, some ag, some (.b w), some (.b d), some (.b l) =>
      w == hg.pdGt ag && d == hg.pdEq ag && l == hg.pdLt ag &&
        exactlyOneTrue w d l
  | _, _, _, _, _ => false

/-- The `data_source` tags the pipeline writes for records fetched from the
two live adapters (`api.py` lines 216 and 252, and line 266). -/
def adapterSourceTags : List String := ["football-data.org", "api-football.com"]

/-- The column list of every synthetic match record (`api.py` lines
469-492). -/
def sampleRowKeys : List String :=
  ["date", "season", "home_team", "away_team", "home_goals", "away_goals",
   "attendance", "shots_home", "shots_away", "fouls_home", "fouls_away",
   "corners_home", "corners_away", "yellow_home", "yellow_away",
   "red_home", "red_away", "xg_home", "xg_away", "home_win", "draw",
   "away_win"]

/-- Concrete single-match DataFrame used to exercise `save_matches`. -/
def fixtureRow1 : Row :=
  [("date", .s "2019-08-10"), ("season", .s "2019/2020"),
   ("home_team", .s "Arsenal"), ("away_team", .s "Chelsea"),
   ("home_goals", .i 1), ("away_goals", .i 0)]

/-- A second record with the same natural key as `fixtureRow1` but different
non-key values. -/
def fixtureRow2 : Row :=
  [("date", .s "2019-08-10"), ("season", .s "2019/2020"),
   ("home_team", .s "Arsenal"), ("away_team", .s "Chelsea"),
   ("home_goals", .i 2), ("away_goals", .i 2)]

/-- The DataFrame holding `fixtureRow1`. -/
def fixtureDf1 : Frame := ⟨required_cols, [fixtureRow1]⟩

/-- The DataFrame holding `fixtureRow2`. -/
def fixtureDf2 : Frame := ⟨required_cols, [fixtureRow2]⟩

/-- An api-football.com fixture between two sides other than the requested
team, carrying statistics blocks for both sides (used to exhibit the
team-filter defect of the fallback fetcher). -/
def c6afMatch : AFMatch :=
  ⟨"FT", "2020-10-24T15:00:00", .null, "Barcelona", "Valencia", 1, 0,
   [⟨some "Barcelona", []⟩, ⟨some "Valencia", []⟩]⟩

/-! ## Basic lemmas about rows -/

theorem Row.get_set_self (r : Row) (c : String) (v : Val) :
    (r.set c v).get c = some v := by
  induction r with
  | nil => simp [Row.set, Row.get]
  | cons p rest ih =>
      obtain ⟨k, w⟩ := p
      by_cases h : k = c
      · simp [Row.set, Row.get, h]
      · simp [Row.set, Row.get, h, ih]

theorem Row.get_set_ne (r : Row) {c c' : String} (v : Val) (h : c ≠ c') :
    (r.set c v).get c' = r.get c' := by
  induction r with
  | nil => simp [Row.set, Row.get, h]
  | cons p rest ih =>
      obtain ⟨k, w⟩ := p
      by_cases hk : k = c
      · subst hk
        simp [Row.set, Row.get, h]
      · simp [Row.set, Row.get, hk, ih]

theorem Row.get_drop_ne (r : Row) {c c' : String} (h : c ≠ c') :
    (r.drop c).get c' = r.get c' := by
  induction r with
  | nil => simp [Row.drop, Row.get]
  | cons p rest ih =>
      obtain ⟨k, w⟩ := p
      by_cases hk : k = c
      · subst hk
        simp [Row.drop, Row.get, h, ih]
      · simp [Row.drop, Row.get, hk, ih]

theorem matchKey_set_ne (r : Row) {c : String} (v : Val)
    (h1 : c ≠ "home_team") (h2 : c ≠ "away_team")
    (h3 : c ≠ "season") (h4 : c ≠ "date") :
    matchKey (r.set c v) = matchKey r := by
  unfold matchKey
  rw [Row.get_set_ne _ _ h1, Row.get_set_ne _ _ h2,
      Row.get_set_ne _ _ h3, Row.get_set_ne _ _ h4]

theorem matchKey_drop_ne (r : Row) {c : String}
    (h1 : c ≠ "home_team") (h2 : c ≠ "away_team")
    (h3 : c ≠ "season") (h4 : c ≠ "date") :
    matchKey (r.drop c) = matchKey r := by
  unfold matchKey
  rw [Row.get_drop_ne _ h1, Row.get_drop_ne _ h2,
      Row.get_drop_ne _ h3, Row.get_drop_ne _ h4]

/-! ## Theorems for the claims -/

/-- C3 counterexample: under the default boundaries the classifier assigns
Post-COVID — not During-COVID, as the claim states — to a match dated
2021-07-31, because `pd.cut(..., right=False)` makes each bin exclusive of
its right edge. -/
theorem c3_boundary_20210731_counterexample :
    define_covid_periods [20210731] none none =
      .ok [(20210731, some "Post-COVID")] ∧
    ("Post-COVID" : String) ≠ "During-COVID" :=
  ⟨rfl, by decide⟩

/-- C3 amended: under the default boundary dates the classifier assigns
Pre-COVID to 2020-02-29, During-COVID to 2020-03-01, Post-COVID to
2021-07-31 (the `duringCovidEnd` boundary itself is excluded from the
During-COVID bin) and Post-COVID to 2021-08-01. -/
theorem c3_period_boundaries_amended :
    define_covid_periods [20200229, 20200301, 20210731, 20210801] none none =
      .ok [(20200229, some "Pre-COVID"), (20200301, some "During-COVID"),
           (20210731, some "Post-COVID"), (20210801, some "Post-COVID")] :=
  rfl

/-- C7: for every pair of caller-supplied boundaries with
`preCovidEnd ≥ duringCovidEnd`, the period classifier fails (the binning
step rejects the non-increasing bin edges) rather than classifying any
match. -/
theorem c7_invalid_boundaries (dates : List Int) (pre dur : Int)
    (h : dur ≤ pre) :
    define_covid_periods dates (some pre) (some dur) =
      .error "bins must increase monotonically" := by
  have hx : decide (pre < dur) = false := decide_eq_false (not_lt.mpr h)
  simp [define_covid_periods, strictlyIncreasing, hx]

/-- Witness for C7 at concrete boundaries 5 and 3. -/
theorem c7_invalid_boundaries_witness :
    (3 : Int) ≤ 5 ∧
    define_covid_periods [20200101] (some 5) (some 3) =
      .error "bins must increase monotonically" :=
  ⟨by decide, c7_invalid_boundaries [20200101] 5 3 (by decide)⟩

/-- C4: any query whose stripped, lowercased text does not start with a
read-only verb is rejected with the `ValueError` before the store is touched
(the store is returned unchanged); `"DELETE FROM matches"` is such a query;
and `"SELECT COUNT(*) FROM matches"` succeeds, returning exactly one row
holding the match count. -/
theorem c4_query_rejection :
    (∀ q store, isReadOnlyQuery q = false →
      execute_custom_query q store =
        (.error "Only SELECT queries are allowed for safety reasons", store)) ∧
    isReadOnlyQuery "DELETE FROM matches" = false ∧
    (∀ store, execute_custom_query "SELECT COUNT(*) FROM matches" store =
      (.ok (.table [[.i (store.matchesTab.length : Int)]]), store)) := by
  refine ⟨fun q store h => ?_, by decide, fun store => ?_⟩
  · simp [execute_custom_query, h]
  · have h1 : isReadOnlyQuery "SELECT COUNT(*) FROM matches" = true := by decide
    simp [execute_custom_query, h1, evalReadSql]

/-- Witness for C4 at the claim's two concrete queries against the empty
store. -/
theorem c4_query_rejection_witness :
    isReadOnlyQuery "DELETE FROM matches" = false ∧
    execute_custom_query "DELETE FROM matches" Store.empty =
      (.error "Only SELECT queries are allowed for safety reasons",
       Store.empty) ∧
    execute_custom_query "SELECT COUNT(*) FROM matches" Store.empty =
      (.ok (.table [[.i (Store.empty.matchesTab.length : Int)]]),
       Store.empty) :=
  ⟨by decide,
   c4_query_rejection.1 "DELETE FROM matches" Store.empty (by decide),
   c4_query_rejection.2.2 Store.empty⟩

/-- C9: on a rate-limited first response for a season, the primary fetch
waits once and retries exactly once (two requests, one sleep, never a third
attempt); on a non-429 first response there is no retry; a final non-200
response contributes nothing for that season; and the season loop always
continues with the remaining seasons. -/
theorem c9_rate_limit_retry :
    (∀ respond : Nat → FDResp,
       primaryRequestCount respond ≤ 2 ∧ primarySleepCount respond ≤ 1) ∧
    (∀ respond : Nat → FDResp, (respond 0).code = 429 →
       primaryRequestCount respond = 2 ∧ primarySleepCount respond = 1 ∧
       primaryFinalResp respond = respond 1) ∧
    (∀ respond : Nat → FDResp, (respond 0).code ≠ 429 →
       primaryRequestCount respond = 1 ∧ primarySleepCount respond = 0 ∧
       primaryFinalResp respond = respond 0) ∧
    (∀ respond league season team, (primaryFinalResp respond).code ≠ 200 →
       primarySeasonRows league season team respond = []) ∧
    (∀ league team envP season seasons,
       primaryAllRows league (season :: seasons) team envP =
         (match SEASON_MAPPING.lookup season, LEAGUE_MAPPING_FD.lookup league with
          | some _, some _ => primarySeasonRows league season team (envP season)
          | _, _ => []) ++ primaryAllRows league seasons team envP) := by
  refine ⟨fun respond => ?_, fun respond h => ?_, fun respond h => ?_,
    fun respond league season team h => ?_,
    fun league team envP season seasons => ?_⟩
  · unfold primaryRequestCount primarySleepCount
    split_ifs <;> simp
  · simp [primaryRequestCount, primarySleepCount, primaryFinalResp, h]
  · simp [primaryRequestCount, primarySleepCount, primaryFinalResp, h]
  · simp [primarySeasonRows, h]
  · simp [primaryAllRows]

/-- Witness for C9 at a concrete environment whose first response is 429 and
whose retry also fails (500): two requests, one sleep, no records, no third
attempt. -/
theorem c9_rate_limit_retry_witness :
    primaryRequestCount (fun n => if n = 0 then ⟨429, []⟩ else ⟨500, []⟩) = 2 ∧
    primarySleepCount (fun n => if n = 0 then ⟨429, []⟩ else ⟨500, []⟩) = 1 ∧
    primarySeasonRows "Premier League" "2019/2020" none
      (fun n => if n = 0 then ⟨429, []⟩ else ⟨500, []⟩) = [] :=
  ⟨(c9_rate_limit_retry.2.1 _ (by decide)).1,
   (c9_rate_limit_retry.2.1 _ (by decide)).2.1,
   c9_rate_limit_retry.2.2.2.1 _ "Premier League" "2019/2020" none (by decide)⟩

/-- C10: an empty input collection makes `save_matches` return immediately
without error and without touching the store; a non-empty input missing one
of the six required columns raises the `ValueError` before any write, leaving
the store unchanged. -/
theorem c10_save_matches_validation :
    (∀ df league source now store, df.rows = [] →
       save_matches df league source now store = ⟨store, none, df, none⟩) ∧
    (∀ df league source now store, df.rows ≠ [] →
       (∃ c ∈ required_cols, c ∉ df.cols) →
       save_matches df league source now store =
         ⟨store, some "Matches DataFrame is missing required columns",
          df, none⟩) := by
  constructor
  · intro df league source now store h
    simp [save_matches, h]
  · rintro df league source now store hne ⟨c, hc, hnc⟩
    have h1 : df.rows.isEmpty = false := by
      simpa [List.isEmpty_iff] using hne
    have h2 : required_cols.all (fun c => decide (c ∈ df.cols)) = false := by
      simp only [List.all_eq_false]
      exact ⟨c, hc, by simpa using hnc⟩
    simp [save_matches, h1, h2]

/-- Witness for C10: the empty DataFrame is a no-op, and a non-empty
DataFrame carrying only a `date` column is rejected. -/
theorem c10_save_matches_validation_witness :
    save_matches ⟨required_cols, []⟩ "Premier League" "api" "T0" Store.empty =
      ⟨Store.empty, none, ⟨required_cols, []⟩, none⟩ ∧
    save_matches ⟨["date"], [[("date", .s "2019-08-10")]]⟩ "Premier League"
        "api" "T0" Store.empty =
      ⟨Store.empty, some "Matches DataFrame is missing required columns",
       ⟨["date"], [[("date", .s "2019-08-10")]]⟩, none⟩ :=
  ⟨c10_save_matches_validation.1 _ _ _ _ _ rfl,
   c10_save_matches_validation.2 _ _ _ _ _ (by decide)
     ⟨"season", by decide, by decide⟩⟩

/-- C5 counterexample: a record passing through the column-mapping
normalization with no goal columns at all ends up with `home_win`, `draw` and
`away_win` all `False` — not exactly one `True` as the claim states — because
every pandas comparison against the NaN-filled goal columns is `False`. -/
theorem c5_missing_goals_counterexample :
    ((process_scoring_columns ⟨["date"], [[("date", .s "2020-01-01")]]⟩).rows.map
      (fun r => (r.get "home_win", r.get "draw", r.get "away_win"))) =
      [(some (.b false), some (.b false), some (.b false))] ∧
    exactlyOneTrue false false false = false :=
  ⟨rfl, rfl⟩

/-- C8 counterexample: `save_matches` inserts one new record here but its
Python return value is `None`, not the count `1` of newly inserted records
the claim promises. -/
theorem c8_return_count_counterexample :
    (save_matches fixtureDf1 "Premier League" "api" "T1" Store.empty).ret =
      none ∧
    (save_matches fixtureDf1 "Premier League" "api" "T1"
      Store.empty).store.matchesTab.length = 1 ∧
    Store.empty.matchesTab.length = 0 ∧
    (none : Option Nat) ≠ some 1 :=
  ⟨rfl, rfl, rfl, by decide⟩

/-- C6: with the team filter "Real Madrid", a fallback-adapter response
holding a finished Barcelona–Valencia fixture with statistics blocks makes
`fetch_football_data` return that fixture — a row involving neither side of
the filter — because the statistics loop rebinds the `team` filter variable
to the statistics' team names before the filter test runs. -/
theorem c6_team_filter_bug_eval :
    ((fetch_football_data "La Liga" ["2020/2021"] (some "Real Madrid")
        Store.empty (fun _ _ => ⟨403, []⟩) (fun _ => ⟨200, [c6afMatch]⟩) []
        (fun _ _ => 20201024) (fun _ _ _ _ => 0) "T0").1.rows.map
      (fun r => (r.get "home_team", r.get "away_team"))) =
      [(some (.s "Barcelona"), some (.s "Valencia"))] ∧
    ((some (Val.s "Barcelona") : Option Val) ≠ some (Val.s "Real Madrid") ∧
     (some (Val.s "Valencia") : Option Val) ≠ some (Val.s "Real Madrid")) := by
  refine ⟨by decide, by decide, by decide⟩

/-! ## Characterization of a successful `save_matches` run -/

theorem frameExt {f g : Frame} (h1 : f.cols = g.cols)
    (h2 : f.rows = g.rows) : f = g := by
  cases f; cases g; cases h1; cases h2; rfl

theorem mem_appendIfAbsent_iff {c c' : String} (cols : List String)
    (h : c' ≠ c) : c' ∈ appendIfAbsent cols c ↔ c' ∈ cols := by
  unfold appendIfAbsent
  split_ifs <;> simp [h]

theorem intifyWinCols_eq (f : Frame) :
    intifyWinCols f = ⟨f.cols, f.rows.map (fun r => winMut f.cols r)⟩ := by
  by_cases h1 : "home_win" ∈ f.cols <;>
  by_cases h2 : "draw" ∈ f.cols <;>
  by_cases h3 : "away_win" ∈ f.cols <;>
  · apply frameExt <;>
      simp [intifyWinCols, Frame.setColBy, winMut, h1, h2, h3, List.map_map,
        Function.comp]

theorem saveDf3_eq (df : Frame) (league source now : String) :
    ((addLeagueCol df league).setColConst "data_source"
        (.s source)).setColConst "last_updated" (.s now) =
      ⟨appendIfAbsent (appendIfAbsent (appendIfAbsent df.cols "league")
          "data_source") "last_updated",
       df.rows.map (fun r =>
         ((if "league" ∈ df.cols then r else r.set "league" (.s league)).set
             "data_source" (.s source)).set "last_updated" (.s now))⟩ := by
  apply frameExt
  · by_cases hl : "league" ∈ df.cols <;>
      simp [addLeagueCol, Frame.setColConst, appendIfAbsent, hl]
  · by_cases hl : "league" ∈ df.cols <;>
      simp [addLeagueCol, Frame.setColConst, hl, List.map_map, Function.comp]

theorem winMut_congr {cols₁ cols₂ : List String}
    (hw : "home_win" ∈ cols₁ ↔ "home_win" ∈ cols₂)
    (hd : "draw" ∈ cols₁ ↔ "draw" ∈ cols₂)
    (ha : "away_win" ∈ cols₁ ↔ "away_win" ∈ cols₂) (r : Row) :
    winMut cols₁ r = winMut cols₂ r := by
  unfold winMut
  by_cases h1 : "home_win" ∈ cols₂ <;>
  by_cases h2 : "draw" ∈ cols₂ <;>
  by_cases h3 : "away_win" ∈ cols₂ <;>
    simp [hw, hd, ha, h1, h2, h3]

theorem saveDf5_eq (df : Frame) (league source now : String) :
    addMatchKeyCol (intifyWinCols (((addLeagueCol df league).setColConst
        "data_source" (.s source)).setColConst "last_updated" (.s now))) =
      ⟨mutCols df.cols,
       df.rows.map (fun r => saveMutRow df.cols league source now r)⟩ := by
  rw [saveDf3_eq, intifyWinCols_eq]
  have hw : "home_win" ∈ appendIfAbsent (appendIfAbsent (appendIfAbsent
      df.cols "league") "data_source") "last_updated" ↔ "home_win" ∈ df.cols := by
    rw [mem_appendIfAbsent_iff _ (by decide), mem_appendIfAbsent_iff _ (by decide),
        mem_appendIfAbsent_iff _ (by decide)]
  have hd : "draw" ∈ appendIfAbsent (appendIfAbsent (appendIfAbsent
      df.cols "league") "data_source") "last_updated" ↔ "draw" ∈ df.cols := by
    rw [mem_appendIfAbsent_iff _ (by decide), mem_appendIfAbsent_iff _ (by decide),
        mem_appendIfAbsent_iff _ (by decide)]
  have ha : "away_win" ∈ appendIfAbsent (appendIfAbsent (appendIfAbsent
      df.cols "league") "data_source") "last_updated" ↔ "away_win" ∈ df.cols := by
    rw [mem_appendIfAbsent_iff _ (by decide), mem_appendIfAbsent_iff _ (by decide),
        mem_appendIfAbsent_iff _ (by decide)]
  apply frameExt
  · simp [addMatchKeyCol, Frame.setColBy, mutCols, appendIfAbsent]
  · simp only [addMatchKeyCol, Frame.setColBy, List.map_map]
    apply List.map_congr_left
    intro r _
    simp only [Function.comp, saveMutRow, saveMutPre]
    rw [winMut_congr hw hd ha]

theorem matchKey_winMut (cols : List String) (r : Row) :
    matchKey (winMut cols r) = matchKey r := by
  unfold winMut
  by_cases h1 : "home_win" ∈ cols <;>
  by_cases h2 : "draw" ∈ cols <;>
  by_cases h3 : "away_win" ∈ cols <;>
    simp [h1, h2, h3, matchKey_set_ne]

theorem matchKey_saveMutPre (cols : List String) (league source now : String)
    (r : Row) : matchKey (saveMutPre cols league source now r) = matchKey r := by
  unfold saveMutPre
  rw [matchKey_winMut]
  by_cases hl : "league" ∈ cols <;> simp [hl, matchKey_set_ne]

theorem matchKey_saveMutRow (cols : List String) (league source now : String)
    (r : Row) : matchKey (saveMutRow cols league source now r) = matchKey r := by
  unfold saveMutRow
  rw [matchKey_set_ne _ _ (by decide) (by decide) (by decide) (by decide),
      matchKey_saveMutPre]

theorem get_mk_saveMutRow (cols : List String) (league source now : String)
    (r : Row) :
    (saveMutRow cols league source now r).get "match_key" =
      some (.s (matchKey r)) := by
  unfold saveMutRow
  rw [Row.get_set_self, matchKey_saveMutPre]

theorem get_winMut_ne (cols : List String) (r : Row) {c : String}
    (h1 : "home_win" ≠ c) (h2 : "draw" ≠ c) (h3 : "away_win" ≠ c) :
    (winMut cols r).get c = r.get c := by
  have g1 : ∀ (x : Row) (v : Val), (x.set "home_win" v).get c = x.get c :=
    fun x v => Row.get_set_ne x v h1
  have g2 : ∀ (x : Row) (v : Val), (x.set "draw" v).get c = x.get c :=
    fun x v => Row.get_set_ne x v h2
  have g3 : ∀ (x : Row) (v : Val), (x.set "away_win" v).get c = x.get c :=
    fun x v => Row.get_set_ne x v h3
  unfold winMut
  by_cases hw : "home_win" ∈ cols <;>
  by_cases hd : "draw" ∈ cols <;>
  by_cases ha : "away_win" ∈ cols <;>
    simp [hw, hd, ha, g1, g2, g3]

theorem get_saveMutPre_ds (cols : List String) (league source now : String)
    (r : Row) :
    (saveMutPre cols league source now r).get "data_source" =
      some (.s source) := by
  unfold saveMutPre
  rw [get_winMut_ne _ _ (by decide) (by decide) (by decide),
      Row.get_set_ne _ _ (by decide), Row.get_set_self]

theorem get_saveMutPre_lu (cols : List String) (league source now : String)
    (r : Row) :
    (saveMutPre cols league source now r).get "last_updated" =
      some (.s now) := by
  unfold saveMutPre
  rw [get_winMut_ne _ _ (by decide) (by decide) (by decide), Row.get_set_self]

theorem get_saveMutPre_league (cols : List String) (league source now : String)
    (r : Row) (hl : "league" ∉ cols) :
    (saveMutPre cols league source now r).get "league" =
      some (.s league) := by
  unfold saveMutPre
  rw [get_winMut_ne _ _ (by decide) (by decide) (by decide),
      Row.get_set_ne _ _ (by decide), Row.get_set_ne _ _ (by decide)]
  simp [hl, Row.get_set_self]

theorem get_saveMutPre_other (cols : List String) (league source now : String)
    (r : Row) {c : String}
    (h : c ∉ (["league", "data_source", "last_updated", "home_win", "draw",
               "away_win"] : List String)) :
    (saveMutPre cols league source now r).get c = r.get c := by
  simp only [List.mem_cons, List.not_mem_nil, or_false, not_or] at h
  obtain ⟨e1, e2, e3, e4, e5, e6⟩ := h
  unfold saveMutPre
  rw [get_winMut_ne _ _ (Ne.symm e4) (Ne.symm e5) (Ne.symm e6),
      Row.get_set_ne _ _ (Ne.symm e3), Row.get_set_ne _ _ (Ne.symm e2)]
  by_cases hl : "league" ∈ cols
  · simp [hl]
  · simp [hl, Row.get_set_ne _ _ (Ne.symm e1)]

theorem get_saveMutRow_ds (cols : List String) (league source now : String)
    (r : Row) :
    (saveMutRow cols league source now r).get "data_source" =
      some (.s source) := by
  unfold saveMutRow
  rw [Row.get_set_ne _ _ (by decide), get_saveMutPre_ds]

theorem get_saveMutRow_lu (cols : List String) (league source now : String)
    (r : Row) :
    (saveMutRow cols league source now r).get "last_updated" =
      some (.s now) := by
  unfold saveMutRow
  rw [Row.get_set_ne _ _ (by decide), get_saveMutPre_lu]

theorem get_saveMutRow_league (cols : List String) (league source now : String)
    (r : Row) (hl : "league" ∉ cols) :
    (saveMutRow cols league source now r).get "league" =
      some (.s league) := by
  unfold saveMutRow
  rw [Row.get_set_ne _ _ (by decide), get_saveMutPre_league _ _ _ _ _ hl]

theorem get_saveMutRow_other (cols : List String) (league source now : String)
    (r : Row) {c : String}
    (h : c ∉ (["league", "data_source", "last_updated", "home_win", "draw",
               "away_win", "match_key"] : List String)) :
    (saveMutRow cols league source now r).get c = r.get c := by
  have h7 : c ≠ "match_key" := by
    intro hc
    exact h (by simp [hc])
  have h6 : c ∉ (["league", "data_source", "last_updated", "home_win", "draw",
      "away_win"] : List String) := by
    intro hc
    apply h
    simp only [List.mem_cons, List.not_mem_nil, or_false] at hc ⊢
    tauto
  unfold saveMutRow
  rw [Row.get_set_ne _ _ (Ne.symm h7), get_saveMutPre_other _ _ _ _ _ h6]

theorem save_matches_run (df : Frame) (league source now : String)
    (store : Store) (hne : df.rows ≠ [])
    (hreq : required_cols.all (fun c => decide (c ∈ df.cols)) = true) :
    save_matches df league source now store =
      ⟨⟨store.matchesTab ++
          (df.rows.filter (fun r =>
            !(existingKeys store league).contains (matchKey r))).map
            (fun r => (saveMutRow df.cols league source now r).drop "match_key"),
        store.teamsTab⟩,
       none,
       ⟨mutCols df.cols,
        df.rows.map (fun r => saveMutRow df.cols league source now r)⟩,
       none⟩ := by
  have h1 : df.rows.isEmpty = false := by simpa [List.isEmpty_iff] using hne
  have hp : ∀ r ∈ df.rows,
      ((fun r => !(match Row.get r "match_key" with
          | some (.s k) => (existingKeys store league).contains k
          | _ => false)) ∘ (fun r => saveMutRow df.cols league source now r)) r =
        (fun r => !(existingKeys store league).contains (matchKey r)) r := by
    intro r _
    simp only [Function.comp, get_mk_saveMutRow]
  simp only [save_matches, h1, hreq, Bool.false_eq_true, if_false,
    not_true_eq_false, Bool.true_eq_false, if_true]
  rw [saveDf5_eq]
  simp only [List.filter_map, List.filter_congr hp, List.map_map]
  rfl

theorem storeExt {s t : Store} (h1 : s.matchesTab = t.matchesTab)
    (h2 : s.teamsTab = t.teamsTab) : s = t := by
  cases s; cases t; cases h1; cases h2; rfl

/-- C8 amended: `save_matches` returns no value (Python `None`), never a
count; the number of records it actually appends to the store equals the
number of input records whose natural key is not already stored for that
league, with records whose key is already present skipped entirely (not
updated, and not counted). -/
theorem c8_save_matches_amended (df : Frame) (league source now : String)
    (store : Store) (hne : df.rows ≠ [])
    (hreq : required_cols.all (fun c => decide (c ∈ df.cols)) = true) :
    (save_matches df league source now store).ret = none ∧
    (save_matches df league source now store).store.matchesTab.length =
      store.matchesTab.length +
        (df.rows.filter (fun r =>
          !(existingKeys store league).contains (matchKey r))).length := by
  rw [save_matches_run df league source now store hne hreq]
  exact ⟨rfl, by simp⟩

/-- Witness for the amended C8 at a concrete one-record DataFrame saved into
the empty store: no return value, one new record counted by the key filter. -/
theorem c8_save_matches_amended_witness :
    (save_matches fixtureDf1 "Premier League" "api" "T1" Store.empty).ret =
      none ∧
    (save_matches fixtureDf1 "Premier League" "api" "T1"
        Store.empty).store.matchesTab.length =
      Store.empty.matchesTab.length +
        (fixtureDf1.rows.filter (fun r =>
          !(existingKeys Store.empty "Premier League").contains
            (matchKey r))).length :=
  c8_save_matches_amended fixtureDf1 "Premier League" "api" "T1" Store.empty
    (by decide) (by decide)

theorem contains_eq_true_iff (l : List String) (a : String) :
    l.contains a = true ↔ a ∈ l := by
  simp [List.contains_iff_exists_mem_beq]

/-- C1 amended: saving a record and then saving a record with the same
natural key (same home_team, away_team, season, date) leaves exactly one
stored record with that key in that league, but the second write is skipped
entirely — the store is unchanged by it — so the surviving record keeps the
FIRST write's non-key field values, its `data_source` and its `last_updated`
timestamp; nothing is updated and `last_updated` does not advance. -/
theorem c1_second_save_skipped
    (cols1 cols2 : List String) (r1 r2 : Row)
    (league source1 source2 t1 t2 : String) (store store1 store2 : Store)
    (hreq1 : required_cols.all (fun c => decide (c ∈ cols1)) = true)
    (hreq2 : required_cols.all (fun c => decide (c ∈ cols2)) = true)
    (hL1 : "league" ∉ cols1)
    (hkey : matchKey r2 = matchKey r1)
    (habsent : (existingKeys store league).contains (matchKey r1) = false)
    (hs1 : store1 = (save_matches ⟨cols1, [r1]⟩ league source1 t1 store).store)
    (hs2 : store2 = (save_matches ⟨cols2, [r2]⟩ league source2 t2 store1).store) :
    store2 = store1 ∧
    (store2.matchesTab.filter (fun r =>
        decide (r.get "league" = some (.s league)) &&
          (matchKey r == matchKey r1))).length = 1 ∧
    ∀ r ∈ store2.matchesTab.filter (fun r =>
        decide (r.get "league" = some (.s league)) &&
          (matchKey r == matchKey r1)),
      r.get "last_updated" = some (.s t1) ∧
      r.get "data_source" = some (.s source1) ∧
      ∀ c, c ∉ (["league", "data_source", "last_updated", "home_win", "draw",
                 "away_win", "match_key"] : List String) →
        r.get c = r1.get c := by
  have hRkey : matchKey ((saveMutRow cols1 league source1 t1 r1).drop
      "match_key") = matchKey r1 := by
    rw [matchKey_drop_ne _ (by decide) (by decide) (by decide) (by decide),
        matchKey_saveMutRow]
  have hRleague : ((saveMutRow cols1 league source1 t1 r1).drop
      "match_key").get "league" = some (.s league) := by
    rw [Row.get_drop_ne _ (by decide), get_saveMutRow_league _ _ _ _ _ hL1]
  have hRlu : ((saveMutRow cols1 league source1 t1 r1).drop
      "match_key").get "last_updated" = some (.s t1) := by
    rw [Row.get_drop_ne _ (by decide), get_saveMutRow_lu]
  have hRds : ((saveMutRow cols1 league source1 t1 r1).drop
      "match_key").get "data_source" = some (.s source1) := by
    rw [Row.get_drop_ne _ (by decide), get_saveMutRow_ds]
  have hRother : ∀ c, c ∉ (["league", "data_source", "last_updated",
      "home_win", "draw", "away_win", "match_key"] : List String) →
      ((saveMutRow cols1 league source1 t1 r1).drop "match_key").get c =
        r1.get c := by
    intro c hc
    have hcmk : "match_key" ≠ c := by
      intro h
      exact hc (by simp [← h])
    rw [Row.get_drop_ne _ hcmk, get_saveMutRow_other _ _ _ _ _ hc]
  have habsent' : matchKey r1 ∉ existingKeys store league := fun hmem => by
    rw [← contains_eq_true_iff] at hmem
    rw [habsent] at hmem
    exact Bool.false_ne_true hmem
  have h1run := save_matches_run ⟨cols1, [r1]⟩ league source1 t1 store
    (by simp) hreq1
  have hstore1 : store1.matchesTab = store.matchesTab ++
      [(saveMutRow cols1 league source1 t1 r1).drop "match_key"] := by
    rw [hs1, h1run]
    simp [List.filter, habsent']
  have hteams1 : store1.teamsTab = store.teamsTab := by
    rw [hs1, h1run]
  have hek : existingKeys store1 league =
      existingKeys store league ++ [matchKey r1] := by
    unfold existingKeys
    rw [hstore1, List.filter_append, List.map_append]
    congr 1
    simp [List.filter, hRleague, hRkey]
  have h2run := save_matches_run ⟨cols2, [r2]⟩ league source2 t2 store1
    (by simp) hreq2
  have hmem2 : matchKey r2 ∈ existingKeys store1 league := by
    rw [hek, hkey]
    simp
  have hstore2 : store2 = store1 := by
    rw [hs2, h2run]
    apply storeExt
    · simp [List.filter, hmem2]
    · rfl
  have hnone : store.matchesTab.filter (fun r =>
      decide (r.get "league" = some (.s league)) &&
        (matchKey r == matchKey r1)) = [] := by
    rw [List.filter_eq_nil_iff]
    intro r hr
    simp only [Bool.and_eq_true, decide_eq_true_eq, beq_iff_eq, not_and]
    intro hlg hkeq
    have hmem : matchKey r1 ∈ existingKeys store league := by
      rw [← hkeq]
      exact List.mem_map_of_mem _ (List.mem_filter.mpr ⟨hr, by simp [hlg]⟩)
    rw [← contains_eq_true_iff] at hmem
    rw [habsent] at hmem
    exact Bool.false_ne_true hmem
  have hfk : store2.matchesTab.filter (fun r =>
      decide (r.get "league" = some (.s league)) &&
        (matchKey r == matchKey r1)) =
      [(saveMutRow cols1 league source1 t1 r1).drop "match_key"] := by
    rw [hstore2, hstore1, List.filter_append, hnone]
    simp [List.filter, hRleague, hRkey]
  refine ⟨hstore2, by rw [hfk]; rfl, ?_⟩
  rw [hfk]
  intro r hr
  rw [List.mem_singleton] at hr
  subst hr
  exact ⟨hRlu, hRds, hRother⟩

/-- C1 counterexample: save a record (home_goals 1, away_goals 0, timestamp
T1), then save a record with the same natural key but different non-key
values (2-2, timestamp T2).  The surviving stored record keeps the FIRST
write's values and timestamp — the claim's requirement that it carry the
second write's values with `last_updated` strictly advanced is false. -/
theorem c1_upsert_counterexample :
    (save_matches fixtureDf2 "Premier League" "api" "T2"
        (save_matches fixtureDf1 "Premier League" "api" "T1"
          Store.empty).store).store =
      (save_matches fixtureDf1 "Premier League" "api" "T1" Store.empty).store ∧
    ((save_matches fixtureDf2 "Premier League" "api" "T2"
        (save_matches fixtureDf1 "Premier League" "api" "T1"
          Store.empty).store).store.matchesTab.map (fun r =>
      (r.get "home_goals", r.get "away_goals", r.get "last_updated"))) =
      [(some (.i 1), some (.i 0), some (.s "T1"))] ∧
    fixtureRow2.get "home_goals" = some (.i 2) ∧
    fixtureRow2.get "away_goals" = some (.i 2) ∧
    ((some (Val.i 1) : Option Val) ≠ some (Val.i 2) ∧
     (some (Val.s "T1") : Option Val) ≠ some (Val.s "T2")) := by
  refine ⟨by decide, by decide, by decide, by decide, by decide, by decide⟩

/-- Witness for the amended C1 at the two concrete fixture records. -/
theorem c1_second_save_skipped_witness :
    (save_matches ⟨required_cols, [fixtureRow2]⟩ "Premier League" "api" "T2"
        (save_matches ⟨required_cols, [fixtureRow1]⟩ "Premier League" "api"
          "T1" Store.empty).store).store =
      (save_matches ⟨required_cols, [fixtureRow1]⟩ "Premier League" "api" "T1"
        Store.empty).store ∧
    (((save_matches ⟨required_cols, [fixtureRow2]⟩ "Premier League" "api" "T2"
        (save_matches ⟨required_cols, [fixtureRow1]⟩ "Premier League" "api"
          "T1" Store.empty).store).store.matchesTab.filter (fun r =>
      decide (r.get "league" = some (.s "Premier League")) &&
        (matchKey r == matchKey fixtureRow1))).length = 1) ∧
    ∀ r ∈ (save_matches ⟨required_cols, [fixtureRow2]⟩ "Premier League" "api"
        "T2" (save_matches ⟨required_cols, [fixtureRow1]⟩ "Premier League"
          "api" "T1" Store.empty).store).store.matchesTab.filter (fun r =>
      decide (r.get "league" = some (.s "Premier League")) &&
        (matchKey r == matchKey fixtureRow1)),
      r.get "last_updated" = some (.s "T1") ∧
      r.get "data_source" = some (.s "api") ∧
      ∀ c, c ∉ (["league", "data_source", "last_updated", "home_win", "draw",
                 "away_win", "match_key"] : List String) →
        r.get c = fixtureRow1.get c :=
  c1_second_save_skipped required_cols required_cols fixtureRow1 fixtureRow2
    "Premier League" "api" "api" "T1" "T2" Store.empty _ _
    (by decide) (by decide) (by decide) (by decide) (by decide) rfl rfl

/-! ## Lemmas about the derived win flags -/

theorem pdFlags_exactlyOne (a b : Int) :
    exactlyOneTrue ((Val.i a).pdGt (.i b)) ((Val.i a).pdEq (.i b))
      ((Val.i a).pdLt (.i b)) = true := by
  rcases lt_trichotomy a b with h | h | h
  · have h1 : ¬ a > b := lt_asymm h
    have h2 : a ≠ b := h.ne
    simp [Val.pdGt, Val.pdEq, Val.pdLt, exactlyOneTrue, h, h1, h2]
  · simp [Val.pdGt, Val.pdEq, Val.pdLt, exactlyOneTrue, h, lt_irrefl]
  · have h1 : ¬ a < b := lt_asymm h
    have h2 : a ≠ b := h.ne'
    simp [Val.pdGt, Val.pdEq, Val.pdLt, exactlyOneTrue, h, h1, h2]

theorem pdFlags_null (v w : Val) (h : v = .null ∨ w = .null) :
    v.pdGt w = false ∧ v.pdEq w = false ∧ v.pdLt w = false := by
  rcases h with h | h <;> subst h
  · exact ⟨by cases w <;> rfl, by cases w <;> rfl, by cases w <;> rfl⟩
  · exact ⟨by cases v <;> rfl, by cases v <;> rfl, by cases v <;> rfl⟩

theorem addDerivedWinCols_flags (f : Frame) (r : Row)
    (hr : r ∈ (addDerivedWinCols f).rows) :
    r.get "home_win" = some (.b (((r.get "home_goals").getD .null).pdGt
      ((r.get "away_goals").getD .null))) ∧
    r.get "draw" = some (.b (((r.get "home_goals").getD .null).pdEq
      ((r.get "away_goals").getD .null))) ∧
    r.get "away_win" = some (.b (((r.get "home_goals").getD .null).pdLt
      ((r.get "away_goals").getD .null))) := by
  simp only [addDerivedWinCols, Frame.setColBy, List.map_map, List.mem_map,
    Function.comp] at hr
  obtain ⟨r0, _, rfl⟩ := hr
  refine ⟨?_, ?_, ?_⟩ <;>
    simp [Row.get_set_self, Row.get_set_ne, deriveWinFlags]

theorem rowFlagsOk_of_intGoals (f : Frame) (r : Row)
    (hr : r ∈ (addDerivedWinCols f).rows) (a b : Int)
    (ha : r.get "home_goals" = some (.i a))
    (hb : r.get "away_goals" = some (.i b)) :
    rowFlagsOk r = true := by
  obtain ⟨h1, h2, h3⟩ := addDerivedWinCols_flags f r hr
  rw [ha, hb] at h1 h2 h3
  unfold rowFlagsOk
  rw [ha, hb, h1, h2, h3]
  simp [pdFlags_exactlyOne]

theorem sampleRow_flagsOk (season home away : String) (date : Int)
    (rng : String → Nat → Nat → Nat → Nat) (matchDay i : Nat) :
    rowFlagsOk (sampleRow season home away date rng matchDay i) = true := by
  unfold sampleRow rowFlagsOk
  simp [Row.get, deriveWinFlags, pdFlags_exactlyOne]

theorem primaryAllRows_goals (league : String) (seasons : List String)
    (team : Option String) (envP : String → Nat → FDResp) (r : Row)
    (hr : r ∈ primaryAllRows league seasons team envP) :
    ∃ a b : Int, r.get "home_goals" = some (.i a) ∧
      r.get "away_goals" = some (.i b) := by
  unfold primaryAllRows at hr
  rw [List.mem_flatMap] at hr
  obtain ⟨season, _, hr⟩ := hr
  rcases hm : SEASON_MAPPING.lookup season with _ | y
  · rw [hm] at hr
    simp at hr
  rcases hl : LEAGUE_MAPPING_FD.lookup league with _ | z
  · rw [hm, hl] at hr
    simp at hr
  rw [hm, hl] at hr
  unfold primarySeasonRows at hr
  by_cases hc : (primaryFinalResp (envP season)).code = 200
  · rw [if_pos hc, List.mem_filterMap] at hr
    obtain ⟨m, _, hm2⟩ := hr
    split at hm2
    · cases hm2
      exact ⟨m.homeGoals, m.awayGoals, rfl, rfl⟩
    · exact absurd hm2 (by simp)
  · rw [if_neg hc] at hr
    simp at hr

/-! ## Row preservation through the fallback normalization and placeholders -/

theorem foldPlaceholder_rows (cs : List String) (f : Frame) :
    ∃ F : Row → Row,
      (∀ g : String, g ∉ cs → ∀ r : Row, (F r).get g = r.get g) ∧
      (cs.foldl (fun f c => if c ∈ f.cols then f else f.setColConst c .null)
        f).rows = f.rows.map F := by
  induction cs generalizing f with
  | nil => exact ⟨id, fun g _ r => rfl, (List.map_id _).symm⟩
  | cons c cs ih =>
      by_cases hc : c ∈ f.cols
      · obtain ⟨F, hF, hrows⟩ := ih f
        refine ⟨F, fun g hg r =>
          hF g (fun h => hg (List.mem_cons_of_mem _ h)) r, ?_⟩
        simpa [List.foldl_cons, hc] using hrows
      · obtain ⟨F, hF, hrows⟩ := ih (f.setColConst c .null)
        refine ⟨fun r => F (r.set c .null), ?_, ?_⟩
        · intro g hg r
          have hgc : c ≠ g := fun h => hg (h ▸ List.mem_cons_self _ _)
          rw [hF g (fun h => hg (List.mem_cons_of_mem _ h)),
              Row.get_set_ne _ _ hgc]
        · rw [List.foldl_cons, if_neg hc, hrows]
          simp [Frame.setColConst, List.map_map, Function.comp]

theorem get_applyStatHome_out (r : Row) (st : AFStat) {g : String}
    (hg : g ∉ (["shots_home", "fouls_home", "corners_home", "yellow_home",
                "red_home"] : List String)) :
    (applyStatHome r st).get g = r.get g := by
  simp only [List.mem_cons, List.not_mem_nil, or_false, not_or] at hg
  obtain ⟨e1, e2, e3, e4, e5⟩ := hg
  have g1 : ∀ (x : Row) (v : Val), (x.set "shots_home" v).get g = x.get g :=
    fun x v => Row.get_set_ne x v (Ne.symm e1)
  have g2 : ∀ (x : Row) (v : Val), (x.set "fouls_home" v).get g = x.get g :=
    fun x v => Row.get_set_ne x v (Ne.symm e2)
  have g3 : ∀ (x : Row) (v : Val), (x.set "corners_home" v).get g = x.get g :=
    fun x v => Row.get_set_ne x v (Ne.symm e3)
  have g4 : ∀ (x : Row) (v : Val), (x.set "yellow_home" v).get g = x.get g :=
    fun x v => Row.get_set_ne x v (Ne.symm e4)
  have g5 : ∀ (x : Row) (v : Val), (x.set "red_home" v).get g = x.get g :=
    fun x v => Row.get_set_ne x v (Ne.symm e5)
  unfold applyStatHome
  split_ifs <;> simp [g1, g2, g3, g4, g5]

theorem get_applyStatAway_out (r : Row) (st : AFStat) {g : String}
    (hg : g ∉ (["shots_away", "fouls_away", "corners_away", "yellow_away",
                "red_away"] : List String)) :
    (applyStatAway r st).get g = r.get g := by
  simp only [List.mem_cons, List.not_mem_nil, or_false, not_or] at hg
  obtain ⟨e1, e2, e3, e4, e5⟩ := hg
  have g1 : ∀ (x : Row) (v : Val), (x.set "shots_away" v).get g = x.get g :=
    fun x v => Row.get_set_ne x v (Ne.symm e1)
  have g2 : ∀ (x : Row) (v : Val), (x.set "fouls_away" v).get g = x.get g :=
    fun x v => Row.get_set_ne x v (Ne.symm e2)
  have g3 : ∀ (x : Row) (v : Val), (x.set "corners_away" v).get g = x.get g :=
    fun x v => Row.get_set_ne x v (Ne.symm e3)
  have g4 : ∀ (x : Row) (v : Val), (x.set "yellow_away" v).get g = x.get g :=
    fun x v => Row.get_set_ne x v (Ne.symm e4)
  have g5 : ∀ (x : Row) (v : Val), (x.set "red_away" v).get g = x.get g :=
    fun x v => Row.get_set_ne x v (Ne.symm e5)
  unfold applyStatAway
  split_ifs <;> simp [g1, g2, g3, g4, g5]

theorem applyStatHome_fold_get (sts : List AFStat) (r : Row) {g : String}
    (hg : g ∉ (["shots_home", "fouls_home", "corners_home", "yellow_home",
                "red_home"] : List String)) :
    (sts.foldl applyStatHome r).get g = r.get g := by
  induction sts generalizing r with
  | nil => rfl
  | cons st rest ih =>
      rw [List.foldl_cons, ih, get_applyStatHome_out _ _ hg]

theorem applyStatAway_fold_get (sts : List AFStat) (r : Row) {g : String}
    (hg : g ∉ (["shots_away", "fouls_away", "corners_away", "yellow_away",
                "red_away"] : List String)) :
    (sts.foldl applyStatAway r).get g = r.get g := by
  induction sts generalizing r with
  | nil => rfl
  | cons st rest ih =>
      rw [List.foldl_cons, ih, get_applyStatAway_out _ _ hg]

theorem afStatsFold_get (m : AFMatch) (l : List AFTeamStats)
    (p : Option String × Row) {g : String}
    (hg : g ∉ (["shots_home", "fouls_home", "corners_home", "yellow_home",
                "red_home", "shots_away", "fouls_away", "corners_away",
                "yellow_away", "red_away"] : List String)) :
    ((l.foldl (afStatsStep m) p).2).get g = p.2.get g := by
  have hgh : g ∉ (["shots_home", "fouls_home", "corners_home", "yellow_home",
      "red_home"] : List String) := by
    intro h
    apply hg
    simp only [List.mem_cons, List.not_mem_nil, or_false] at h ⊢
    tauto
  have hga : g ∉ (["shots_away", "fouls_away", "corners_away", "yellow_away",
      "red_away"] : List String) := by
    intro h
    apply hg
    simp only [List.mem_cons, List.not_mem_nil, or_false] at h ⊢
    tauto
  induction l generalizing p with
  | nil => rfl
  | cons ts rest ih =>
      rw [List.foldl_cons, ih]
      unfold afStatsStep
      rcases ts.teamName with _ | name
      · rfl
      · simp only []
        split_ifs
        · exact applyStatHome_fold_get _ _ hgh
        · exact applyStatAway_fold_get _ _ hga
        · rfl

theorem processAFMatch_rows (season : String)
    (st : Option String × List Row) (m : AFMatch) (r : Row)
    (hr : r ∈ (processAFMatch season st m).2) :
    r ∈ st.2 ∨ ∃ a b : Int, r.get "home_goals" = some (.i a) ∧
      r.get "away_goals" = some (.i b) := by
  unfold processAFMatch at hr
  split at hr
  · exact Or.inl hr
  · simp only [] at hr
    split at hr
    · rw [List.mem_append] at hr
      rcases hr with hr | hr
      · exact Or.inl hr
      · rw [List.mem_singleton] at hr
        subst hr
        right
        refine ⟨m.homeGoals, m.awayGoals, ?_, ?_⟩
        · rw [afStatsFold_get _ _ _ (by decide)]
          rfl
        · rw [afStatsFold_get _ _ _ (by decide)]
          rfl
    · exact Or.inl hr

theorem fixturesFold_rows (season : String) (fixtures : List AFMatch)
    (st : Option String × List Row) (r : Row)
    (hr : r ∈ (fixtures.foldl (processAFMatch season) st).2) :
    r ∈ st.2 ∨ ∃ a b : Int, r.get "home_goals" = some (.i a) ∧
      r.get "away_goals" = some (.i b) := by
  induction fixtures generalizing st with
  | nil => exact Or.inl hr
  | cons m rest ih =>
      rw [List.foldl_cons] at hr
      rcases ih _ hr with h | h
      · exact processAFMatch_rows season st m r h
      · exact Or.inr h

theorem fallbackLoop_rows (league : String) (envF : String → AFResp)
    (seasons : List String) (st : Option String × List Row) (r : Row)
    (hr : r ∈ (seasons.foldl (fun (st : Option String × List Row) season =>
      match SEASON_MAPPING.lookup season, LEAGUE_MAPPING_AF.lookup league with
      | some _, some _ =>
          let resp := envF season
          if resp.code = 200 then
            resp.fixtures.foldl (processAFMatch season) st
          else st
      | _, _ => st) st).2) :
    r ∈ st.2 ∨ ∃ a b : Int, r.get "home_goals" = some (.i a) ∧
      r.get "away_goals" = some (.i b) := by
  induction seasons generalizing st with
  | nil => exact Or.inl hr
  | cons season rest ih =>
      rw [List.foldl_cons] at hr
      rcases ih _ hr with h | h
      · rcases hm : SEASON_MAPPING.lookup season with _ | y
        · rw [hm] at h
          exact Or.inl h
        rcases hl : LEAGUE_MAPPING_AF.lookup league with _ | z
        · rw [hm, hl] at h
          exact Or.inl h
        rw [hm, hl] at h
        simp only [] at h
        split at h
        · exact fixturesFold_rows season _ st r h
        · exact Or.inl h
      · exact Or.inr h

theorem mem_sampleSeasonRows (season : String) (team : Option String)
    (teamsFetched : List String) (dateOf : Int → Nat → Int)
    (rng : String → Nat → Nat → Nat → Nat) (startYear : Int) (r : Row)
    (hr : r ∈ sampleSeasonRows season team teamsFetched dateOf rng startYear) :
    ∃ home away date matchDay i,
      r = sampleRow season home away date rng matchDay i := by
  unfold sampleSeasonRows at hr
  rw [List.mem_flatMap] at hr
  obtain ⟨k, _, hr⟩ := hr
  simp only [] at hr
  rw [List.mem_filterMap] at hr
  obtain ⟨i, _, hi⟩ := hr
  split at hi
  · cases hi
    exact ⟨_, _, _, _, _, rfl⟩
  · exact absurd hi (by simp)

theorem sampleFold_rows (team : Option String) (teamsFetched : List String)
    (dateOf : Int → Nat → Int) (rng : String → Nat → Nat → Nat → Nat)
    (seasons : List String) :
    ∀ (acc rows : List Row),
      seasons.foldlM (sampleSeasonStep team teamsFetched dateOf rng) acc =
        .ok rows →
      ∀ x ∈ rows, x ∈ acc ∨ ∃ season home away date matchDay i,
        x = sampleRow season home away date rng matchDay i := by
  induction seasons with
  | nil =>
      intro acc rows h x hx
      simp only [List.foldlM_nil] at h
      cases h
      exact Or.inl hx
  | cons season rest ih =>
      intro acc rows h x hx
      rw [List.foldlM_cons] at h
      rcases hs : sampleSeasonStep team teamsFetched dateOf rng acc season
        with e | acc'
      · rw [hs] at h
        exact absurd h (by simp [Bind.bind, Except.bind])
      · rw [hs] at h
        simp only [Bind.bind, Except.bind] at h
        rcases ih acc' rows h x hx with hmem | hnew
        · unfold sampleSeasonStep at hs
          split at hs
          · exact absurd hs (by simp [throw, throwThe, MonadExceptOf.throw])
          · split at hs
            · obtain rfl := Except.ok.inj hs
              rcases List.mem_append.mp hmem with h1 | h2
              · exact Or.inl h1
              · obtain ⟨home, away, date, matchDay, i, hx2⟩ :=
                  mem_sampleSeasonRows season team teamsFetched dateOf rng
                    _ x h2
                exact Or.inr ⟨season, home, away, date, matchDay, i, hx2⟩
            · obtain rfl := Except.ok.inj hs
              exact Or.inl hmem
        · exact Or.inr hnew

theorem create_sample_rows (seasons : List String) (team : Option String)
    (teamsFetched : List String) (dateOf : Int → Nat → Int)
    (rng : String → Nat → Nat → Nat → Nat) (f : Frame)
    (hok : create_sample_data seasons team teamsFetched dateOf rng = .ok f)
    (r : Row) (hr : r ∈ f.rows) :
    ∃ season home away date matchDay i,
      r = sampleRow season home away date rng matchDay i := by
  unfold create_sample_data at hok
  rcases hx : seasons.foldlM (sampleSeasonStep team teamsFetched dateOf rng)
      ([] : List Row) with e | rows
  · rw [hx] at hok
    exact absurd hok (by simp [Bind.bind, Except.bind])
  · rw [hx] at hok
    simp only [Bind.bind, Except.bind] at hok
    obtain rfl := Except.ok.inj hok
    rcases sampleFold_rows team teamsFetched dateOf rng seasons [] rows hx r
        hr with h | h
    · exact absurd h (List.not_mem_nil r)
    · exact h

theorem addDerivedWinCols_rows_exists (f : Frame) (r : Row)
    (hr : r ∈ (addDerivedWinCols f).rows) :
    ∃ r0 ∈ f.rows, r.get "home_goals" = r0.get "home_goals" ∧
      r.get "away_goals" = r0.get "away_goals" := by
  simp only [addDerivedWinCols, Frame.setColBy, List.map_map, List.mem_map,
    Function.comp] at hr
  obtain ⟨r0, h0, rfl⟩ := hr
  refine ⟨r0, h0, ?_, ?_⟩ <;> simp [Row.get_set_ne]

theorem rowFlagsOk_congr {r r' : Row}
    (h1 : r.get "home_goals" = r'.get "home_goals")
    (h2 : r.get "away_goals" = r'.get "away_goals")
    (h3 : r.get "home_win" = r'.get "home_win")
    (h4 : r.get "draw" = r'.get "draw")
    (h5 : r.get "away_win" = r'.get "away_win") :
    rowFlagsOk r = rowFlagsOk r' := by
  unfold rowFlagsOk
  rw [h1, h2, h3, h4, h5]

/-- C5 amended: the derived flags are always computed as the three pandas
goal comparisons, so a record whose goals are both integers has exactly one
of `home_win`/`draw`/`away_win` true and consistent with the goals — this
covers every record of the primary-API frames, the fallback-API frames and
the synthetic generator, whose goals are integers by construction.  In the
column-mapping normalization, however, a record whose goals are missing or
non-numeric (NaN after coercion) gets ALL THREE flags false, because every
pandas comparison involving NaN is false. -/
theorem c5_win_flags_amended :
    (∀ a b : Int, exactlyOneTrue ((Val.i a).pdGt (.i b)) ((Val.i a).pdEq (.i b))
        ((Val.i a).pdLt (.i b)) = true) ∧
    (∀ v w : Val, v = .null ∨ w = .null →
        v.pdGt w = false ∧ v.pdEq w = false ∧ v.pdLt w = false) ∧
    (∀ f : Frame, ∀ r ∈ (process_scoring_columns f).rows,
        r.get "home_win" = some (.b (((r.get "home_goals").getD .null).pdGt
          ((r.get "away_goals").getD .null))) ∧
        r.get "draw" = some (.b (((r.get "home_goals").getD .null).pdEq
          ((r.get "away_goals").getD .null))) ∧
        r.get "away_win" = some (.b (((r.get "home_goals").getD .null).pdLt
          ((r.get "away_goals").getD .null)))) ∧
    (∀ (season home away : String) (date : Int)
        (rng : String → Nat → Nat → Nat → Nat) (matchDay i : Nat),
        rowFlagsOk (sampleRow season home away date rng matchDay i) = true) ∧
    (∀ league seasons team envP,
        ∀ r ∈ (addDerivedWinCols (frameOfRows
          (primaryAllRows league seasons team envP))).rows,
        rowFlagsOk r = true) ∧
    (∀ league seasons team envF teamsFetched dateOf rng f,
        fetch_football_data_fallback league seasons team envF teamsFetched
          dateOf rng = .ok f →
        ∀ r ∈ f.rows, rowFlagsOk r = true) := by
  refine ⟨pdFlags_exactlyOne, pdFlags_null, ?_, sampleRow_flagsOk, ?_, ?_⟩
  · intro f r hr
    unfold process_scoring_columns at hr
    simp only [] at hr
    exact addDerivedWinCols_flags _ r hr
  · intro league seasons team envP r hr
    obtain ⟨r0, h0, hg, ha⟩ := addDerivedWinCols_rows_exists _ r hr
    obtain ⟨a, b, hga, hgb⟩ := primaryAllRows_goals league seasons team envP
      r0 h0
    exact rowFlagsOk_of_intGoals _ r hr a b (by rw [hg, hga]) (by rw [ha, hgb])
  · intro league seasons team envF teamsFetched dateOf rng f hok r hr
    unfold fetch_football_data_fallback at hok
    simp only [] at hok
    split at hok
    · obtain ⟨season, home, away, date, matchDay, i, rfl⟩ :=
        create_sample_rows seasons team teamsFetched dateOf rng f hok r hr
      exact sampleRow_flagsOk season home away date rng matchDay i
    · obtain rfl := Except.ok.inj hok
      obtain ⟨F, hF, hrows⟩ := foldPlaceholder_rows statPlaceholderCols
        (addDerivedWinCols (frameOfRows _))
      rw [show addPlaceholderCols (addDerivedWinCols (frameOfRows _)) =
          statPlaceholderCols.foldl (fun f c =>
            if c ∈ f.cols then f else f.setColConst c .null)
            (addDerivedWinCols (frameOfRows _)) from rfl, hrows] at hr
      rw [List.mem_map] at hr
      obtain ⟨r1, hr1, rfl⟩ := hr
      rw [rowFlagsOk_congr (hF _ (by decide) r1) (hF _ (by decide) r1)
        (hF _ (by decide) r1) (hF _ (by decide) r1) (hF _ (by decide) r1)]
      obtain ⟨r0, h0, hg, ha⟩ := addDerivedWinCols_rows_exists _ r1 hr1
      rcases fallbackLoop_rows league envF seasons (team, []) r0 h0 with
        habs | ⟨a, b, hga, hgb⟩
      · exact absurd habs (List.not_mem_nil r0)
      · exact rowFlagsOk_of_intGoals _ r1 hr1 a b (by rw [hg, hga])
          (by rw [ha, hgb])

/-- Witness for the amended C5: the NaN clause at concrete null/0 cells, the
column-mapping clause at a concrete one-row frame without goal columns, and
the synthetic-generator clause at a concrete record. -/
theorem c5_win_flags_amended_witness :
    (Val.null.pdGt (.i 0) = false ∧ Val.null.pdEq (.i 0) = false ∧
     Val.null.pdLt (.i 0) = false) ∧
    (Row.get ([("date", .s "2020-01-01"), ("home_goals", Val.null),
       ("away_goals", Val.null), ("home_win", .b false), ("draw", .b false),
       ("away_win", .b false)] : Row) "home_win" =
      some (.b (((Row.get ([("date", .s "2020-01-01"), ("home_goals", Val.null),
        ("away_goals", Val.null), ("home_win", .b false), ("draw", .b false),
        ("away_win", .b false)] : Row) "home_goals").getD .null).pdGt
          ((Row.get ([("date", .s "2020-01-01"), ("home_goals", Val.null),
        ("away_goals", Val.null), ("home_win", .b false), ("draw", .b false),
        ("away_win", .b false)] : Row) "away_goals").getD .null)))) ∧
    rowFlagsOk (sampleRow "2019/2020" "Team 1" "Team 20" 20190801
      (fun _ _ _ _ => 0) 1 0) = true :=
  ⟨c5_win_flags_amended.2.1 .null (.i 0) (Or.inl rfl),
   (c5_win_flags_amended.2.2.1 ⟨["date"], [[("date", .s "2020-01-01")]]⟩
     ([("date", .s "2020-01-01"), ("home_goals", Val.null),
       ("away_goals", Val.null), ("home_win", .b false), ("draw", .b false),
       ("away_win", .b false)] : Row) (by decide)).1,
   c5_win_flags_amended.2.2.2.1 "2019/2020" "Team 1" "Team 20" 20190801
     (fun _ _ _ _ => 0) 1 0⟩

/-! ## The synthetic-fallback run of the orchestrator -/

theorem fixturesFold_noFT (season : String) (fixtures : List AFMatch)
    (st : Option String × List Row)
    (h : ∀ m ∈ fixtures, m.statusShort ≠ "FT") :
    fixtures.foldl (processAFMatch season) st = st := by
  induction fixtures generalizing st with
  | nil => rfl
  | cons m rest ih =>
      rw [List.foldl_cons,
          show processAFMatch season st m = st from by
            unfold processAFMatch
            rw [if_pos (h m (List.mem_cons_self _ _))]]
      exact ih _ (fun m' hm' => h m' (List.mem_cons_of_mem _ hm'))

theorem frameOfRows_cols_const (rows : List Row) (ks : List String)
    (hne : rows ≠ []) (h : ∀ r ∈ rows, r.map Prod.fst = ks) :
    (frameOfRows rows).cols = ks := by
  have hstep : ∀ (rows' : List Row), (∀ r ∈ rows', r.map Prod.fst = ks) →
      rows'.foldl (fun acc r =>
        acc ++ ((r.map Prod.fst).filter (fun c => !(acc.contains c)))) ks =
        ks := by
    intro rows'
    induction rows' with
    | nil => intro _; rfl
    | cons r rest ih =>
        intro h'
        rw [List.foldl_cons]
        have h1 : (r.map Prod.fst).filter (fun c => !(ks.contains c)) = [] := by
          rw [List.filter_eq_nil_iff]
          intro c hc
          rw [h' r (List.mem_cons_self _ _)] at hc
          simp [contains_eq_true_iff, hc]
        rw [h1, List.append_nil]
        exact ih (fun r' hr' => h' r' (List.mem_cons_of_mem _ hr'))
  unfold frameOfRows
  rcases rows with _ | ⟨r, rest⟩
  · exact absurd rfl hne
  · rw [List.foldl_cons]
    have h0 : ([] : List String) ++
        ((r.map Prod.fst).filter (fun c => !(([] : List String).contains c))) =
        ks := by
      rw [List.nil_append, ← h r (List.mem_cons_self _ _)]
      rw [List.filter_eq_self.mpr]
      intro c _
      rfl
    rw [h0]
    exact hstep rest (fun r' hr' => h r' (List.mem_cons_of_mem _ hr'))

theorem get_saveMutRow_league_mem (cols : List String)
    (league source now : String) (r : Row) (hl : "league" ∈ cols) :
    (saveMutRow cols league source now r).get "league" = r.get "league" := by
  unfold saveMutRow saveMutPre
  rw [Row.get_set_ne _ _ (by decide),
      get_winMut_ne _ _ (by decide) (by decide) (by decide),
      Row.get_set_ne _ _ (by decide), Row.get_set_ne _ _ (by decide),
      if_pos hl]

theorem sampleRow_keys (season home away : String) (date : Int)
    (rng : String → Nat → Nat → Nat → Nat) (matchDay i : Nat) :
    (sampleRow season home away date rng matchDay i).map Prod.fst =
      sampleRowKeys := rfl

theorem sampleRow_get_season (season home away : String) (date : Int)
    (rng : String → Nat → Nat → Nat → Nat) (matchDay i : Nat) :
    (sampleRow season home away date rng matchDay i).get "season" =
      some (.s season) := rfl

theorem sampleSeasonRows_ne_nil (season : String) (teams : List String)
    (dateOf : Int → Nat → Int) (rng : String → Nat → Nat → Nat → Nat)
    (startYear : Int) :
    sampleSeasonRows season none teams dateOf rng startYear ≠ [] := by
  have hlen : 10 ≤ (sampleRelevantTeams none teams).length := by
    unfold sampleRelevantTeams
    by_cases ht : teams.length < 10
    · simp [ht, sampleTeamNames]
    · simp only [if_neg ht, List.length_take]
      omega
  have hhalf : 0 < (sampleRelevantTeams none teams).length / 2 := by omega
  apply List.ne_nil_of_mem
    (a := sampleRow season ((sampleRelevantTeams none teams).getD 0 "")
      ((sampleRelevantTeams none teams).getD
        ((sampleRelevantTeams none teams).length - 1 - 0) "")
      (dateOf startYear (0 + 1)) rng (0 + 1) 0)
  unfold sampleSeasonRows
  apply List.mem_flatMap.mpr
  refine ⟨0, by simp, ?_⟩
  apply List.mem_filterMap.mpr
  refine ⟨0, by simpa [List.mem_range] using hhalf, ?_⟩
  rfl

theorem fetchSampleRun (store : Store) (envP : String → Nat → FDResp)
    (envF : String → AFResp) (teams : List String) (dateOf : Int → Nat → Int)
    (rng : String → Nat → Nat → Nat → Nat) (now : String)
    (out : Frame × Store)
    (hcache : get_matches (some "Premier League") ["2019/2020"] none store = [])
    (hkeys : existingKeys store "Premier League" = [])
    (hprim : primaryAllRows "Premier League" ["2019/2020"] none envP = [])
    (hfb : ∀ m ∈ (envF "2019/2020").fixtures, m.statusShort ≠ "FT")
    (hout : out = fetch_football_data "Premier League" ["2019/2020"] none
      store envP envF teams dateOf rng now) :
    out.1.rows ≠ [] ∧
    (∀ r ∈ out.1.rows, r.get "data_source" = some (.s "api-football.com")) ∧
    get_matches (some "Premier League") ["2019/2020"] none out.2 ≠ [] ∧
    (∀ envP' envF' teams' dateOf' rng' now',
      fetch_football_data "Premier League" ["2019/2020"] none out.2 envP'
        envF' teams' dateOf' rng' now' =
        (frameOfRows (get_matches (some "Premier League") ["2019/2020"] none
          out.2), out.2)) := by
  have hne0 : sampleSeasonRows "2019/2020" none teams dateOf rng 2019 ≠ [] :=
    sampleSeasonRows_ne_nil "2019/2020" teams dateOf rng 2019
  have hkeysR : ∀ r ∈ sampleSeasonRows "2019/2020" none teams dateOf rng 2019,
      r.map Prod.fst = sampleRowKeys := by
    intro r hr
    obtain ⟨home, away, date, matchDay, i, rfl⟩ :=
      mem_sampleSeasonRows _ _ _ _ _ _ r hr
    rfl
  have hfbrun : fetch_football_data_fallback "Premier League" ["2019/2020"]
      none envF teams dateOf rng =
      .ok (frameOfRows (sampleSeasonRows "2019/2020" none teams dateOf rng
        2019)) := by
    have hbody : ∀ (st : Option String × List Row),
        (if (envF "2019/2020").code = 200 then
          (envF "2019/2020").fixtures.foldl (processAFMatch "2019/2020") st
        else st) = st := by
      intro st
      by_cases hc : (envF "2019/2020").code = 200
      · rw [if_pos hc, fixturesFold_noFT _ _ _ hfb]
      · rw [if_neg hc]
    unfold fetch_football_data_fallback
    simp only [List.foldl_cons, List.foldl_nil,
      show SEASON_MAPPING.lookup "2019/2020" = some 2019 from rfl,
      show LEAGUE_MAPPING_AF.lookup "Premier League" = some 39 from rfl]
    rw [hbody]
    rfl
  have hisempty : (List.isEmpty (sampleSeasonRows "2019/2020" none teams
      dateOf rng 2019)) = false := by
    simpa [List.isEmpty_iff] using hne0
  have hout1 : out =
      ((save_matches ((frameOfRows (sampleSeasonRows "2019/2020" none teams
          dateOf rng 2019)).setColConst "league" (.s "Premier League"))
        "Premier League" "api-football.com" now store).df,
       (save_matches ((frameOfRows (sampleSeasonRows "2019/2020" none teams
          dateOf rng 2019)).setColConst "league" (.s "Premier League"))
        "Premier League" "api-football.com" now store).store) := by
    rw [hout]
    unfold fetch_football_data
    rw [hcache, hprim, hfbrun]
    simp only [List.isEmpty_nil, not_true_eq_false, Bool.false_eq_true,
      if_false, frameOfRows, hisempty, Bool.not_false, if_true]
    rw [if_pos not_false]
  have hcols1 : ((frameOfRows (sampleSeasonRows "2019/2020" none teams dateOf
      rng 2019)).setColConst "league" (.s "Premier League")).cols =
      sampleRowKeys ++ ["league"] := by
    have h1 : (frameOfRows (sampleSeasonRows "2019/2020" none teams dateOf
        rng 2019)).cols = sampleRowKeys :=
      frameOfRows_cols_const _ sampleRowKeys hne0 hkeysR
    simp only [Frame.setColConst, h1]
    rw [if_neg (by decide)]
  have hrows1 : ((frameOfRows (sampleSeasonRows "2019/2020" none teams dateOf
      rng 2019)).setColConst "league" (.s "Premier League")).rows =
      (sampleSeasonRows "2019/2020" none teams dateOf rng 2019).map
        (fun r => r.set "league" (.s "Premier League")) := rfl
  have hne1 : ((frameOfRows (sampleSeasonRows "2019/2020" none teams dateOf
      rng 2019)).setColConst "league" (.s "Premier League")).rows ≠ [] := by
    rw [hrows1]
    simpa using hne0
  have hreq1 : required_cols.all (fun c => decide
      (c ∈ ((frameOfRows (sampleSeasonRows "2019/2020" none teams dateOf
        rng 2019)).setColConst "league" (.s "Premier League")).cols)) =
      true := by
    rw [hcols1]
    decide
  have hrun := save_matches_run
    ((frameOfRows (sampleSeasonRows "2019/2020" none teams dateOf rng
      2019)).setColConst "league" (.s "Premier League"))
    "Premier League" "api-football.com" now store hne1 hreq1
  have hfilterall : ((frameOfRows (sampleSeasonRows "2019/2020" none teams
      dateOf rng 2019)).setColConst "league" (.s "Premier League")).rows.filter
      (fun r => !(existingKeys store "Premier League").contains (matchKey r)) =
      ((frameOfRows (sampleSeasonRows "2019/2020" none teams dateOf rng
        2019)).setColConst "league" (.s "Premier League")).rows := by
    rw [hkeys]
    exact List.filter_eq_self.mpr (fun a _ => rfl)
  constructor
  · rw [hout1, hrun]
    simpa using hne1
  constructor
  · intro r hr
    rw [hout1, hrun] at hr
    simp only [List.mem_map] at hr
    obtain ⟨r0, _, rfl⟩ := hr
    exact get_saveMutRow_ds _ _ _ _ _
  · have hgm : ∀ (st2 : Store), st2 = (save_matches ((frameOfRows
        (sampleSeasonRows "2019/2020" none teams dateOf rng
        2019)).setColConst "league" (.s "Premier League")) "Premier League"
        "api-football.com" now store).store →
        get_matches (some "Premier League") ["2019/2020"] none st2 =
        (((frameOfRows (sampleSeasonRows "2019/2020" none teams dateOf rng
          2019)).setColConst "league" (.s "Premier League")).rows.map
          (fun r => (saveMutRow (sampleRowKeys ++ ["league"]) "Premier League"
            "api-football.com" now r).drop "match_key")).map
          (fun r => (["home_win", "draw", "away_win"]).foldl (fun rr c =>
            match rr.get c with
            | some v => rr.set c v.toBoolCell
            | none => rr) r) := by
      intro st2 hst2
      rw [hst2, hrun]
      unfold get_matches
      simp only [hcols1, hfilterall]
      rw [List.filter_append]
      have hold : store.matchesTab.filter (fun r =>
          (match some "Premier League" with
           | some l => decide (r.get "league" = some (.s l))
           | none => true) &&
          (if (["2019/2020"] : List String).isEmpty then true
           else (["2019/2020"] : List String).any (fun sn =>
             decide (r.get "season" = some (.s sn)))) &&
          (match (none : Option String) with
           | some t => decide (r.get "home_team" = some (.s t)) ||
                       decide (r.get "away_team" = some (.s t))
           | none => true)) = [] := by
        have := hcache
        unfold get_matches at this
        exact List.map_eq_nil_iff.mp this
      rw [hold, List.nil_append]
      congr 1
      apply List.filter_eq_self.mpr
      intro x hx
      rw [List.mem_map] at hx
      obtain ⟨r1, hr1, rfl⟩ := hx
      rw [hrows1, List.mem_map] at hr1
      obtain ⟨r0, hr0, rfl⟩ := hr1
      have hlg : ((saveMutRow (sampleRowKeys ++ ["league"]) "Premier League"
          "api-football.com" now (r0.set "league"
            (.s "Premier League"))).drop "match_key").get "league" =
          some (.s "Premier League") := by
        rw [Row.get_drop_ne _ (by decide),
            get_saveMutRow_league_mem _ _ _ _ _ (by decide),
            Row.get_set_self]
      have hsn : ((saveMutRow (sampleRowKeys ++ ["league"]) "Premier League"
          "api-football.com" now (r0.set "league"
            (.s "Premier League"))).drop "match_key").get "season" =
          some (.s "2019/2020") := by
        obtain ⟨home, away, date, matchDay, i, rfl⟩ :=
          mem_sampleSeasonRows _ _ _ _ _ _ r0 hr0
        rw [Row.get_drop_ne _ (by decide),
            get_saveMutRow_other _ _ _ _ _ (by decide),
            Row.get_set_ne _ _ (by decide), sampleRow_get_season]
      simp [hlg, hsn]
    refine ⟨?_, ?_⟩
    · rw [hout1]
      rw [hgm _ rfl]
      simp only [ne_eq, List.map_eq_nil_iff]
      rw [hrows1]
      simpa using hne0
    · intro envP' envF' teams' dateOf' rng' now'
      have hcne : (get_matches (some "Premier League") ["2019/2020"] none
          out.2).isEmpty = false := by
        have h2 : get_matches (some "Premier League") ["2019/2020"] none
            out.2 ≠ [] := by
          rw [hout1, hgm _ rfl]
          simp only [ne_eq, List.map_eq_nil_iff]
          rw [hrows1]
          simpa using hne0
        simpa [List.isEmpty_iff] using h2
      have hproof : ¬ ((get_matches (some "Premier League") ["2019/2020"]
          none out.2).isEmpty = true) := by
        simp [hcne]
      conv =>
        lhs
        rw [fetch_football_data]
      rw [if_pos hproof]

/-- C2 amended: with an empty cache for the request and both adapters
yielding zero (finished) records for league "Premier League", seasons
["2019/2020"], the fetch returns a non-empty synthetic dataset and, once
persisted, the next identical request is served directly from the Local
Store cache — but the dataset's `data_source` provenance tag is
"api-football.com", the same tag used for real records of the secondary
adapter, not a synthetic marker: synthetic data is not distinguishable from
real data by its provenance tag. -/
theorem c2_fallback_chain_amended (store : Store)
    (envP : String → Nat → FDResp) (envF : String → AFResp)
    (teams : List String) (dateOf : Int → Nat → Int)
    (rng : String → Nat → Nat → Nat → Nat) (now : String)
    (out : Frame × Store)
    (hcache : get_matches (some "Premier League") ["2019/2020"] none store = [])
    (hkeys : existingKeys store "Premier League" = [])
    (hprim : primaryAllRows "Premier League" ["2019/2020"] none envP = [])
    (hfb : ∀ m ∈ (envF "2019/2020").fixtures, m.statusShort ≠ "FT")
    (hout : out = fetch_football_data "Premier League" ["2019/2020"] none
      store envP envF teams dateOf rng now) :
    out.1.rows ≠ [] ∧
    (∀ r ∈ out.1.rows, r.get "data_source" = some (.s "api-football.com")) ∧
    "api-football.com" ∈ adapterSourceTags ∧
    get_matches (some "Premier League") ["2019/2020"] none out.2 ≠ [] ∧
    (∀ envP' envF' teams' dateOf' rng' now',
      fetch_football_data "Premier League" ["2019/2020"] none out.2 envP'
        envF' teams' dateOf' rng' now' =
        (frameOfRows (get_matches (some "Premier League") ["2019/2020"] none
          out.2), out.2)) := by
  obtain ⟨h1, h2, h3, h4⟩ := fetchSampleRun store envP envF teams dateOf rng
    now out hcache hkeys hprim hfb hout
  exact ⟨h1, h2, by decide, h3, h4⟩

/-- C2 counterexample: in a concrete run where the cache is empty and both
adapters fail, the returned dataset is non-empty and synthetic, yet every
row's `data_source` is "api-football.com" — a member of the tags the
pipeline writes for REAL adapter data — so the provenance tag does not mark
the dataset as synthetic or distinguish it from real data, contradicting the
claim. -/
theorem c2_synthetic_tag_counterexample :
    (fetch_football_data "Premier League" ["2019/2020"] none Store.empty
      (fun _ _ => ⟨403, []⟩) (fun _ => ⟨404, []⟩) [] (fun _ _ => 20190801)
      (fun _ _ _ _ => 0) "T0").1.rows ≠ [] ∧
    (∀ r ∈ (fetch_football_data "Premier League" ["2019/2020"] none
        Store.empty (fun _ _ => ⟨403, []⟩) (fun _ => ⟨404, []⟩) []
        (fun _ _ => 20190801) (fun _ _ _ _ => 0) "T0").1.rows,
      r.get "data_source" = some (.s "api-football.com")) ∧
    "api-football.com" ∈ adapterSourceTags := by
  obtain ⟨h1, h2, _, _⟩ := fetchSampleRun Store.empty (fun _ _ => ⟨403, []⟩)
    (fun _ => ⟨404, []⟩) [] (fun _ _ => 20190801) (fun _ _ _ _ => 0) "T0"
    _ rfl rfl rfl (fun m hm => absurd hm (List.not_mem_nil m)) rfl
  exact ⟨h1, h2, by decide⟩

/-- Witness for the amended C2 at a concrete empty store and failing
adapters. -/
theorem c2_fallback_chain_amended_witness :
    (fetch_football_data "Premier League" ["2019/2020"] none Store.empty
      (fun _ _ => ⟨500, []⟩) (fun _ => ⟨500, []⟩) [] (fun _ _ => 20200401)
      (fun _ _ _ _ => 1) "T1").1.rows ≠ [] ∧
    (∀ r ∈ (fetch_football_data "Premier League" ["2019/2020"] none
        Store.empty (fun _ _ => ⟨500, []⟩) (fun _ => ⟨500, []⟩) []
        (fun _ _ => 20200401) (fun _ _ _ _ => 1) "T1").1.rows,
      r.get "data_source" = some (.s "api-football.com")) ∧
    "api-football.com" ∈ adapterSourceTags ∧
    get_matches (some "Premier League") ["2019/2020"] none
      (fetch_football_data "Premier League" ["2019/2020"] none Store.empty
        (fun _ _ => ⟨500, []⟩) (fun _ => ⟨500, []⟩) [] (fun _ _ => 20200401)
        (fun _ _ _ _ => 1) "T1").2 ≠ [] ∧
    (∀ envP' envF' teams' dateOf' rng' now',
      fetch_football_data "Premier League" ["2019/2020"] none
        (fetch_football_data "Premier League" ["2019/2020"] none Store.empty
          (fun _ _ => ⟨500, []⟩) (fun _ => ⟨500, []⟩) []
          (fun _ _ => 20200401) (fun _ _ _ _ => 1) "T1").2 envP' envF'
        teams' dateOf' rng' now' =
        (frameOfRows (get_matches (some "Premier League") ["2019/2020"] none
          (fetch_football_data "Premier League" ["2019/2020"] none Store.empty
            (fun _ _ => ⟨500, []⟩) (fun _ => ⟨500, []⟩) []
            (fun _ _ => 20200401) (fun _ _ _ _ => 1) "T1").2),
         (fetch_football_data "Premier League" ["2019/2020"] none Store.empty
           (fun _ _ => ⟨500, []⟩) (fun _ => ⟨500, []⟩) []
           (fun _ _ => 20200401) (fun _ _ _ _ => 1) "T1").2)) :=
  c2_fallback_chain_amended Store.empty (fun _ _ => ⟨500, []⟩)
    (fun _ => ⟨500, []⟩) [] (fun _ _ => 20200401) (fun _ _ _ _ => 1) "T1"
    _ rfl rfl rfl (fun m hm => absurd hm (List.not_mem_nil m)) rfl
